import Mathlib

/-
  Verification development for a terminal snake game written in C
  (file snake.c, ~290 lines).  The game engine is embedded shallowly:

  * machine `int`s become `Int` (coordinates) or `Nat` (dimensions, score,
    level, delay, lengths); no overflow is reachable at the values involved,
    so no explicit wrap-around is modelled;
  * the global mutable game state becomes the structure `GameState`;
  * the C PRNG `rand()` is modelled by `Rng`, a stream of non-negative
    samples: a finite buffer of explicit values followed by a constant
    default.  Every terminating computation of the engine consumes only a
    finite prefix of the stream, and every finite prefix is representable,
    so quantifying over `Rng` quantifies over all sample behaviours the
    code can observe;
  * the fixed-capacity array `Point snake[MAX_SNAKE]` together with
    `snake_len` becomes a `List Point` (head first); the in-place shift
    `for (i = snake_len; i > 0; --i) snake[i] = snake[i-1]; snake[0] = nh`
    becomes consing the new head (and dropping the last element when the
    length is not to grow), which is extensionally the array contents at
    indices `0 .. snake_len-1`.
-/

namespace Snake

/-- Game configuration constants from the C source. -/
def DEFAULT_WIDTH : Nat := 30

/-- Default grid height from the C source. -/
def DEFAULT_HEIGHT : Nat := 20

/-- `#define MAX_SNAKE (DEFAULT_WIDTH * DEFAULT_HEIGHT)`: the fixed
capacity of the snake segment buffer, 600 cells.  Note this is a
compile-time constant computed from the *default* dimensions, not from the
session's actual `width`/`height`. -/
def MAX_SNAKE : Nat := DEFAULT_WIDTH * DEFAULT_HEIGHT

/-- Initial snake length. -/
def STARTING_LENGTH : Nat := 4

/-- Initial tick delay in milliseconds. -/
def INITIAL_DELAY_MS : Nat := 200

/-- Floor for the tick delay. -/
def MIN_DELAY_MS : Nat := 50

/-- `typedef struct { int x, y; } Point;` -/
structure Point where
  x : Int
  y : Int
deriving DecidableEq, Repr

/-- `typedef enum { UP, DOWN, LEFT, RIGHT } Direction;` -/
inductive Direction where
  | UP
  | DOWN
  | LEFT
  | RIGHT
deriving DecidableEq, Repr

/-- Model of the C PRNG stream consumed through `rand()`: an explicit
finite buffer of samples, then the constant `dflt` forever. -/
structure Rng where
  buf : List Nat
  dflt : Nat
deriving DecidableEq, Repr

/-- Draw one sample from the stream. -/
def rand (r : Rng) : Nat × Rng :=
  (r.buf.headD r.dflt, ⟨r.buf.tail, r.dflt⟩)

/-- `int point_equal(Point a, Point b) { return a.x == b.x && a.y == b.y; }` -/
def point_equal (a b : Point) : Bool :=
  a.x == b.x && a.y == b.y

/-- The retry loop of `place_fruit`, with the remaining number of allowed
retries as fuel.  The C loop samples `fruit.x = rand() % width`,
`fruit.y = rand() % height`, scans the snake for a collision, returns the
sample if free, and gives up (returning the last, colliding, sample) once
`++tries > 10000`, i.e. after 10001 total samples. -/
def place_fruit_go (w h : Nat) (sn : List Point) : Nat → Rng → Point × Rng
  | fuel, r =>
    let s1 := rand r
    let s2 := rand s1.2
    let f : Point := ⟨((s1.1 % w : Nat) : Int), ((s2.1 % h : Nat) : Int)⟩
    if sn.any (fun p => point_equal p f) then
      match fuel with
      | 0 => (f, s2.2)
      | fuel + 1 => place_fruit_go w h sn fuel s2.2
    else
      (f, s2.2)

/-- `void place_fruit()` from the C source, as a function of the grid
dimensions, the current snake and the PRNG stream. -/
def place_fruit (w h : Nat) (sn : List Point) (r : Rng) : Point × Rng :=
  place_fruit_go w h sn 10000 r

/-- The global game state of the C program (minus the PRNG, which is
threaded separately as `Rng`). -/
structure GameState where
  width : Nat
  height : Nat
  snake : List Point
  dir : Direction
  fruit : Point
  score : Nat
  delay_ms : Nat
  level : Nat
  game_over : Bool
deriving DecidableEq, Repr

/-- Move a point one cell in a direction: the `switch (dir)` at the top of
`step_snake`. -/
def apply_dir (p : Point) : Direction → Point
  | .UP => ⟨p.x, p.y - 1⟩
  | .DOWN => ⟨p.x, p.y + 1⟩
  | .LEFT => ⟨p.x - 1, p.y⟩
  | .RIGHT => ⟨p.x + 1, p.y⟩

/-- `new_head`: the current head (`snake[0]`) moved one cell in the
current direction. -/
def new_head_of (s : GameState) : Point :=
  apply_dir (s.snake.headD ⟨0, 0⟩) s.dir

/-- The wall-collision test of `step_snake`:
`new_head.x < 0 || new_head.x >= width || new_head.y < 0 || new_head.y >= height`. -/
def wall_hit (s : GameState) : Bool :=
  decide ((new_head_of s).x < 0) || decide ((s.width : Int) ≤ (new_head_of s).x) ||
  decide ((new_head_of s).y < 0) || decide ((s.height : Int) ≤ (new_head_of s).y)

/-- The self-collision test of `step_snake`: the new head equals some
existing segment (the scan runs over all `snake_len` segments, so the
current tail is included). -/
def self_hit (s : GameState) : Bool :=
  s.snake.any (fun p => point_equal (new_head_of s) p)

/-- `void init_game()`: centered horizontal snake of length 4, heading
right, initial stats, then the first fruit placement.  Returns the state
together with the advanced PRNG stream. -/
def init_game (w h : Nat) (r : Rng) : GameState × Rng :=
  let cx : Int := ((w / 2 : Nat) : Int)
  let cy : Int := ((h / 2 : Nat) : Int)
  let sn := (List.range STARTING_LENGTH).map (fun (i : Nat) => Point.mk (cx - (i : Int)) cy)
  let pf := place_fruit w h sn r
  ({ width := w, height := h, snake := sn, dir := Direction.RIGHT, fruit := pf.1,
     score := 0, delay_ms := INITIAL_DELAY_MS, level := 1, game_over := false }, pf.2)

/-- The fruit-eating branch of `step_snake`: grow by prepending the new
head (the tail is not dropped), add 10 to the score, re-place the fruit
over the grown snake, and apply the speed-up rule
`if (snake_len % 3 == 0 && delay_ms > MIN_DELAY_MS)`. -/
def grow_state (s : GameState) (r : Rng) : GameState × Rng :=
  let sn2 := new_head_of s :: s.snake
  let pf := place_fruit s.width s.height sn2 r
  let s1 : GameState := { s with snake := sn2, score := s.score + 10, fruit := pf.1 }
  if sn2.length % 3 == 0 && decide (MIN_DELAY_MS < s1.delay_ms) then
    ({ s1 with delay_ms := s1.delay_ms - 10, level := s1.level + 1 }, pf.2)
  else
    (s1, pf.2)

/-- The normal-move branch of `step_snake`: prepend the new head and keep
the length, i.e. drop the last segment. -/
def move_state (s : GameState) : GameState :=
  { s with snake := new_head_of s :: s.snake.dropLast }

/-- `int step_snake()`: returns `false` on collision or full board
("game over"), `true` otherwise, together with the updated state and PRNG
stream.  Checks, in order: wall collision, self collision, fruit; on a
fruit the board-full test `snake_len >= MAX_SNAKE-1` runs after growth. -/
def step_snake (s : GameState) (r : Rng) : Bool × GameState × Rng :=
  if wall_hit s then (false, s, r)
  else if self_hit s then (false, s, r)
  else if point_equal (new_head_of s) s.fruit then
    let g := grow_state s r
    if MAX_SNAKE - 1 ≤ s.snake.length + 1 then (false, g.1, g.2)
    else (true, g.1, g.2)
  else
    (true, move_state s, r)

/-- `void change_direction(Direction newd)`: ignore an exact reversal,
otherwise store the new direction. -/
def change_direction (s : GameState) (newd : Direction) : GameState :=
  if (s.dir == Direction.UP && newd == Direction.DOWN) ||
     (s.dir == Direction.DOWN && newd == Direction.UP) ||
     (s.dir == Direction.LEFT && newd == Direction.RIGHT) ||
     (s.dir == Direction.RIGHT && newd == Direction.LEFT) then s
  else { s with dir := newd }

/-- One tick as driven by `main`: run `step_snake` and set the
`game_over` flag when it reports a collision or a full board. -/
def session_tick (s : GameState) (r : Rng) : GameState × Rng :=
  let t := step_snake s r
  (if t.1 then t.2.1 else { t.2.1 with game_over := true }, t.2.2)

/-- The states reachable by the driver loop of `main`: start at
`init_game`, and repeatedly either request a direction change or tick;
`main` never ticks once `game_over` is set. -/
inductive Reach (w h : Nat) : GameState × Rng → Prop where
  | init (r : Rng) : Reach w h (init_game w h r)
  | turn (sr : GameState × Rng) (d : Direction) :
      Reach w h sr → Reach w h (change_direction sr.1 d, sr.2)
  | step (sr : GameState × Rng) :
      Reach w h sr → sr.1.game_over = false → Reach w h (session_tick sr.1 sr.2)

/-- Run a scripted sequence of driver-loop iterations: each item
optionally requests a direction change, then ticks unless the game is
over (mirroring the `while (!game_over)` loop of `main`). -/
def run (sr : GameState × Rng) : List (Option Direction) → GameState × Rng
  | [] => sr
  | a :: rest =>
    let s1 := match a with
      | some d => change_direction sr.1 d
      | none => sr.1
    run (if s1.game_over then (s1, sr.2) else session_tick s1 sr.2) rest

/-- The configurations `main` accepts from the command line:
`w >= 10 && h >= 5 && w*h <= 10000`. -/
def accepted (w h : Nat) : Prop :=
  10 ≤ w ∧ 5 ≤ h ∧ w * h ≤ 10000

/-- A point lies inside the `[0,width) × [0,height)` grid. -/
def in_grid (w h : Nat) (p : Point) : Prop :=
  0 ≤ p.x ∧ p.x < (w : Int) ∧ 0 ≤ p.y ∧ p.y < (h : Int)

/-- The snake-buffer indices a tick can touch, as a function of the
pre-tick state: the body shift writes `snake[i]` for `i = snake_len` down
to `1` and reads `snake[i-1]`, `snake[0]` is written, the collision scan
reads indices below `snake_len`, and the post-growth fruit scan reads
indices below `snake_len + 1`; in total exactly `0 .. snake_len`. -/
def tick_buffer_indices (s : GameState) : List Nat :=
  List.range (s.snake.length + 1)

/-- Decidability of `accepted`. -/
instance accepted_dec (w h : Nat) : Decidable (accepted w h) := by
  unfold accepted; infer_instance

/-- Every index in the list is below the bound. -/
def indices_below (l : List Nat) (b : Nat) : Prop :=
  ∀ i ∈ l, i < b

/-- Decidability of `indices_below`. -/
instance indices_below_dec (l : List Nat) (b : Nat) : Decidable (indices_below l b) := by
  unfold indices_below; infer_instance

/-- The `n`-th sample the stream will produce (without consuming it). -/
def nth_rand (r : Rng) (n : Nat) : Nat :=
  r.buf.getD n r.dflt

/-- The `n`-th fruit cell the placement loop would sample from stream
`r`: x from sample `2n`, y from sample `2n+1`. -/
def proposal (w h : Nat) (r : Rng) (n : Nat) : Point :=
  ⟨((nth_rand r (2 * n) % w : Nat) : Int), ((nth_rand r (2 * n + 1) % h : Nat) : Int)⟩

/-- Decidability of grid membership. -/
instance in_grid_dec (w h : Nat) (p : Point) : Decidable (in_grid w h p) := by
  unfold in_grid; infer_instance

/-- Every point of a list lies inside the grid. -/
def all_in_grid (w h : Nat) (l : List Point) : Prop :=
  ∀ p ∈ l, in_grid w h p

/-- Decidability of `all_in_grid`. -/
instance all_in_grid_dec (w h : Nat) (l : List Point) : Decidable (all_in_grid w h l) := by
  unfold all_in_grid; infer_instance

/-- Row-major index of a cell on the default 30-column grid (used to
state that a concrete segment list is strictly ascending, hence
duplicate-free). -/
def cell_index (p : Point) : Int :=
  p.y * 30 + p.x

/-- A list of points with strictly increasing `cell_index`. -/
def ascending : List Point → Bool
  | [] => true
  | [_] => true
  | p :: q :: l => decide (cell_index p < cell_index q) && ascending (q :: l)

/-- The three cells of the default 30 by 20 grid left out of the long
snake below: the free cell `(0,0)` and the head/fruit cells. -/
def excluded (p : Point) : Bool :=
  point_equal p ⟨0, 0⟩ || point_equal p ⟨28, 19⟩ || point_equal p ⟨29, 19⟩

/-- 597 cells of the default 30 by 20 grid in row-major order (all cells
except `(0,0)`, `(28,19)` and `(29,19)`). -/
def C6TAIL : List Point :=
  ((List.range 600).map (fun n => Point.mk ((n % 30 : Nat) : Int) ((n / 30 : Nat) : Int))).filter
    (fun p => !excluded p)

/-- A 30 by 20 state one fruit away from the board-full stop: a snake of
598 pairwise-distinct in-grid segments with head `(28,19)` about to eat
the fruit at `(29,19)`; stats are consistent with the reachable-state
invariants (score `10*(598-4)`, delay at the floor). -/
def C6S : GameState :=
  ⟨30, 20, ⟨28, 19⟩ :: C6TAIL, Direction.RIGHT, ⟨29, 19⟩, 5940, 50, 16, false⟩

-- Generated trace data: scripted 10 by 5 session that fills the board.
def T5BUF : List Nat := [6, 2, 7, 2, 8, 2, 9, 2, 9, 1, 9, 0, 8, 0, 8, 1, 7, 1, 7, 0, 6, 0, 6, 1, 5, 1, 5, 0, 4, 0, 4, 1, 3, 1, 3, 0, 2, 0, 2, 1, 1, 1, 1, 0, 0, 0, 0, 1, 0, 2, 1, 2, 1, 3, 0, 3, 0, 4, 1, 4, 2, 4, 2, 3, 3, 3, 3, 4, 4, 4, 4, 3, 5, 3, 5, 4, 6, 4, 6, 3, 7, 3, 7, 4, 8, 4, 8, 3, 9, 3, 9, 4]
def T5S0 : GameState := ⟨10, 5, [⟨5, 2⟩, ⟨4, 2⟩, ⟨3, 2⟩, ⟨2, 2⟩], Direction.RIGHT, ⟨6, 2⟩, 0, 200, 1, false⟩
def T5R0 : Rng := ⟨[7, 2, 8, 2, 9, 2, 9, 1, 9, 0, 8, 0, 8, 1, 7, 1, 7, 0, 6, 0, 6, 1, 5, 1, 5, 0, 4, 0, 4, 1, 3, 1, 3, 0, 2, 0, 2, 1, 1, 1, 1, 0, 0, 0, 0, 1, 0, 2, 1, 2, 1, 3, 0, 3, 0, 4, 1, 4, 2, 4, 2, 3, 3, 3, 3, 4, 4, 4, 4, 3, 5, 3, 5, 4, 6, 4, 6, 3, 7, 3, 7, 4, 8, 4, 8, 3, 9, 3, 9, 4], 9⟩
def T5S1 : GameState := ⟨10, 5, [⟨6, 2⟩, ⟨5, 2⟩, ⟨4, 2⟩, ⟨3, 2⟩, ⟨2, 2⟩], Direction.RIGHT, ⟨7, 2⟩, 10, 200, 1, false⟩
def T5R1 : Rng := ⟨[8, 2, 9, 2, 9, 1, 9, 0, 8, 0, 8, 1, 7, 1, 7, 0, 6, 0, 6, 1, 5, 1, 5, 0, 4, 0, 4, 1, 3, 1, 3, 0, 2, 0, 2, 1, 1, 1, 1, 0, 0, 0, 0, 1, 0, 2, 1, 2, 1, 3, 0, 3, 0, 4, 1, 4, 2, 4, 2, 3, 3, 3, 3, 4, 4, 4, 4, 3, 5, 3, 5, 4, 6, 4, 6, 3, 7, 3, 7, 4, 8, 4, 8, 3, 9, 3, 9, 4], 9⟩
def T5S2 : GameState := ⟨10, 5, [⟨7, 2⟩, ⟨6, 2⟩, ⟨5, 2⟩, ⟨4, 2⟩, ⟨3, 2⟩, ⟨2, 2⟩], Direction.RIGHT, ⟨8, 2⟩, 20, 190, 2, false⟩
def T5R2 : Rng := ⟨[9, 2, 9, 1, 9, 0, 8, 0, 8, 1, 7, 1, 7, 0, 6, 0, 6, 1, 5, 1, 5, 0, 4, 0, 4, 1, 3, 1, 3, 0, 2, 0, 2, 1, 1, 1, 1, 0, 0, 0, 0, 1, 0, 2, 1, 2, 1, 3, 0, 3, 0, 4, 1, 4, 2, 4, 2, 3, 3, 3, 3, 4, 4, 4, 4, 3, 5, 3, 5, 4, 6, 4, 6, 3, 7, 3, 7, 4, 8, 4, 8, 3, 9, 3, 9, 4], 9⟩
def T5S3 : GameState := ⟨10, 5, [⟨8, 2⟩, ⟨7, 2⟩, ⟨6, 2⟩, ⟨5, 2⟩, ⟨4, 2⟩, ⟨3, 2⟩, ⟨2, 2⟩], Direction.RIGHT, ⟨9, 2⟩, 30, 190, 2, false⟩
def T5R3 : Rng := ⟨[9, 1, 9, 0, 8, 0, 8, 1, 7, 1, 7, 0, 6, 0, 6, 1, 5, 1, 5, 0, 4, 0, 4, 1, 3, 1, 3, 0, 2, 0, 2, 1, 1, 1, 1, 0, 0, 0, 0, 1, 0, 2, 1, 2, 1, 3, 0, 3, 0, 4, 1, 4, 2, 4, 2, 3, 3, 3, 3, 4, 4, 4, 4, 3, 5, 3, 5, 4, 6, 4, 6, 3, 7, 3, 7, 4, 8, 4, 8, 3, 9, 3, 9, 4], 9⟩
def T5S4 : GameState := ⟨10, 5, [⟨9, 2⟩, ⟨8, 2⟩, ⟨7, 2⟩, ⟨6, 2⟩, ⟨5, 2⟩, ⟨4, 2⟩, ⟨3, 2⟩, ⟨2, 2⟩], Direction.RIGHT, ⟨9, 1⟩, 40, 190, 2, false⟩
def T5R4 : Rng := ⟨[9, 0, 8, 0, 8, 1, 7, 1, 7, 0, 6, 0, 6, 1, 5, 1, 5, 0, 4, 0, 4, 1, 3, 1, 3, 0, 2, 0, 2, 1, 1, 1, 1, 0, 0, 0, 0, 1, 0, 2, 1, 2, 1, 3, 0, 3, 0, 4, 1, 4, 2, 4, 2, 3, 3, 3, 3, 4, 4, 4, 4, 3, 5, 3, 5, 4, 6, 4, 6, 3, 7, 3, 7, 4, 8, 4, 8, 3, 9, 3, 9, 4], 9⟩
def T5S5 : GameState := ⟨10, 5, [⟨9, 1⟩, ⟨9, 2⟩, ⟨8, 2⟩, ⟨7, 2⟩, ⟨6, 2⟩, ⟨5, 2⟩, ⟨4, 2⟩, ⟨3, 2⟩, ⟨2, 2⟩], Direction.UP, ⟨9, 0⟩, 50, 180, 3, false⟩
def T5R5 : Rng := ⟨[8, 0, 8, 1, 7, 1, 7, 0, 6, 0, 6, 1, 5, 1, 5, 0, 4, 0, 4, 1, 3, 1, 3, 0, 2, 0, 2, 1, 1, 1, 1, 0, 0, 0, 0, 1, 0, 2, 1, 2, 1, 3, 0, 3, 0, 4, 1, 4, 2, 4, 2, 3, 3, 3, 3, 4, 4, 4, 4, 3, 5, 3, 5, 4, 6, 4, 6, 3, 7, 3, 7, 4, 8, 4, 8, 3, 9, 3, 9, 4], 9⟩
def T5S6 : GameState := ⟨10, 5, [⟨9, 0⟩, ⟨9, 1⟩, ⟨9, 2⟩, ⟨8, 2⟩, ⟨7, 2⟩, ⟨6, 2⟩, ⟨5, 2⟩, ⟨4, 2⟩, ⟨3, 2⟩, ⟨2, 2⟩], Direction.UP, ⟨8, 0⟩, 60, 180, 3, false⟩
def T5R6 : Rng := ⟨[8, 1, 7, 1, 7, 0, 6, 0, 6, 1, 5, 1, 5, 0, 4, 0, 4, 1, 3, 1, 3, 0, 2, 0, 2, 1, 1, 1, 1, 0, 0, 0, 0, 1, 0, 2, 1, 2, 1, 3, 0, 3, 0, 4, 1, 4, 2, 4, 2, 3, 3, 3, 3, 4, 4, 4, 4, 3, 5, 3, 5, 4, 6, 4, 6, 3, 7, 3, 7, 4, 8, 4, 8, 3, 9, 3, 9, 4], 9⟩
def T5S7 : GameState := ⟨10, 5, [⟨8, 0⟩, ⟨9, 0⟩, ⟨9, 1⟩, ⟨9, 2⟩, ⟨8, 2⟩, ⟨7, 2⟩, ⟨6, 2⟩, ⟨5, 2⟩, ⟨4, 2⟩, ⟨3, 2⟩, ⟨2, 2⟩], Direction.LEFT, ⟨8, 1⟩, 70, 180, 3, false⟩
def T5R7 : Rng := ⟨[7, 1, 7, 0, 6, 0, 6, 1, 5, 1, 5, 0, 4, 0, 4, 1, 3, 1, 3, 0, 2, 0, 2, 1, 1, 1, 1, 0, 0, 0, 0, 1, 0, 2, 1, 2, 1, 3, 0, 3, 0, 4, 1, 4, 2, 4, 2, 3, 3, 3, 3, 4, 4, 4, 4, 3, 5, 3, 5, 4, 6, 4, 6, 3, 7, 3, 7, 4, 8, 4, 8, 3, 9, 3, 9, 4], 9⟩
def T5S8 : GameState := ⟨10, 5, [⟨8, 1⟩, ⟨8, 0⟩, ⟨9, 0⟩, ⟨9, 1⟩, ⟨9, 2⟩, ⟨8, 2⟩, ⟨7, 2⟩, ⟨6, 2⟩, ⟨5, 2⟩, ⟨4, 2⟩, ⟨3, 2⟩, ⟨2, 2⟩], Direction.DOWN, ⟨7, 1⟩, 80, 170, 4, false⟩
def T5R8 : Rng := ⟨[7, 0, 6, 0, 6, 1, 5, 1, 5, 0, 4, 0, 4, 1, 3, 1, 3, 0, 2, 0, 2, 1, 1, 1, 1, 0, 0, 0, 0, 1, 0, 2, 1, 2, 1, 3, 0, 3, 0, 4, 1, 4, 2, 4, 2, 3, 3, 3, 3, 4, 4, 4, 4, 3, 5, 3, 5, 4, 6, 4, 6, 3, 7, 3, 7, 4, 8, 4, 8, 3, 9, 3, 9, 4], 9⟩
def T5S9 : GameState := ⟨10, 5, [⟨7, 1⟩, ⟨8, 1⟩, ⟨8, 0⟩, ⟨9, 0⟩, ⟨9, 1⟩, ⟨9, 2⟩, ⟨8, 2⟩, ⟨7, 2⟩, ⟨6, 2⟩, ⟨5, 2⟩, ⟨4, 2⟩, ⟨3, 2⟩, ⟨2, 2⟩], Direction.LEFT, ⟨7, 0⟩, 90, 170, 4, false⟩
def T5R9 : Rng := ⟨[6, 0, 6, 1, 5, 1, 5, 0, 4, 0, 4, 1, 3, 1, 3, 0, 2, 0, 2, 1, 1, 1, 1, 0, 0, 0, 0, 1, 0, 2, 1, 2, 1, 3, 0, 3, 0, 4, 1, 4, 2, 4, 2, 3, 3, 3, 3, 4, 4, 4, 4, 3, 5, 3, 5, 4, 6, 4, 6, 3, 7, 3, 7, 4, 8, 4, 8, 3, 9, 3, 9, 4], 9⟩
def T5S10 : GameState := ⟨10, 5, [⟨7, 0⟩, ⟨7, 1⟩, ⟨8, 1⟩, ⟨8, 0⟩, ⟨9, 0⟩, ⟨9, 1⟩, ⟨9, 2⟩, ⟨8, 2⟩, ⟨7, 2⟩, ⟨6, 2⟩, ⟨5, 2⟩, ⟨4, 2⟩, ⟨3, 2⟩, ⟨2, 2⟩], Direction.UP, ⟨6, 0⟩, 100, 170, 4, false⟩
def T5R10 : Rng := ⟨[6, 1, 5, 1, 5, 0, 4, 0, 4, 1, 3, 1, 3, 0, 2, 0, 2, 1, 1, 1, 1, 0, 0, 0, 0, 1, 0, 2, 1, 2, 1, 3, 0, 3, 0, 4, 1, 4, 2, 4, 2, 3, 3, 3, 3, 4, 4, 4, 4, 3, 5, 3, 5, 4, 6, 4, 6, 3, 7, 3, 7, 4, 8, 4, 8, 3, 9, 3, 9, 4], 9⟩
def T5S11 : GameState := ⟨10, 5, [⟨6, 0⟩, ⟨7, 0⟩, ⟨7, 1⟩, ⟨8, 1⟩, ⟨8, 0⟩, ⟨9, 0⟩, ⟨9, 1⟩, ⟨9, 2⟩, ⟨8, 2⟩, ⟨7, 2⟩, ⟨6, 2⟩, ⟨5, 2⟩, ⟨4, 2⟩, ⟨3, 2⟩, ⟨2, 2⟩], Direction.LEFT, ⟨6, 1⟩, 110, 160, 5, false⟩
def T5R11 : Rng := ⟨[5, 1, 5, 0, 4, 0, 4, 1, 3, 1, 3, 0, 2, 0, 2, 1, 1, 1, 1, 0, 0, 0, 0, 1, 0, 2, 1, 2, 1, 3, 0, 3, 0, 4, 1, 4, 2, 4, 2, 3, 3, 3, 3, 4, 4, 4, 4, 3, 5, 3, 5, 4, 6, 4, 6, 3, 7, 3, 7, 4, 8, 4, 8, 3, 9, 3, 9, 4], 9⟩
def T5S12 : GameState := ⟨10, 5, [⟨6, 1⟩, ⟨6, 0⟩, ⟨7, 0⟩, ⟨7, 1⟩, ⟨8, 1⟩, ⟨8, 0⟩, ⟨9, 0⟩, ⟨9, 1⟩, ⟨9, 2⟩, ⟨8, 2⟩, ⟨7, 2⟩, ⟨6, 2⟩, ⟨5, 2⟩, ⟨4, 2⟩, ⟨3, 2⟩, ⟨2, 2⟩], Direction.DOWN, ⟨5, 1⟩, 120, 160, 5, false⟩
def T5R12 : Rng := ⟨[5, 0, 4, 0, 4, 1, 3, 1, 3, 0, 2, 0, 2, 1, 1, 1, 1, 0, 0, 0, 0, 1, 0, 2, 1, 2, 1, 3, 0, 3, 0, 4, 1, 4, 2, 4, 2, 3, 3, 3, 3, 4, 4, 4, 4, 3, 5, 3, 5, 4, 6, 4, 6, 3, 7, 3, 7, 4, 8, 4, 8, 3, 9, 3, 9, 4], 9⟩
def T5S13 : GameState := ⟨10, 5, [⟨5, 1⟩, ⟨6, 1⟩, ⟨6, 0⟩, ⟨7, 0⟩, ⟨7, 1⟩, ⟨8, 1⟩, ⟨8, 0⟩, ⟨9, 0⟩, ⟨9, 1⟩, ⟨9, 2⟩, ⟨8, 2⟩, ⟨7, 2⟩, ⟨6, 2⟩, ⟨5, 2⟩, ⟨4, 2⟩, ⟨3, 2⟩, ⟨2, 2⟩], Direction.LEFT, ⟨5, 0⟩, 130, 160, 5, false⟩
def T5R13 : Rng := ⟨[4, 0, 4, 1, 3, 1, 3, 0, 2, 0, 2, 1, 1, 1, 1, 0, 0, 0, 0, 1, 0, 2, 1, 2, 1, 3, 0, 3, 0, 4, 1, 4, 2, 4, 2, 3, 3, 3, 3, 4, 4, 4, 4, 3, 5, 3, 5, 4, 6, 4, 6, 3, 7, 3, 7, 4, 8, 4, 8, 3, 9, 3, 9, 4], 9⟩
def T5S14 : GameState := ⟨10, 5, [⟨5, 0⟩, ⟨5, 1⟩, ⟨6, 1⟩, ⟨6, 0⟩, ⟨7, 0⟩, ⟨7, 1⟩, ⟨8, 1⟩, ⟨8, 0⟩, ⟨9, 0⟩, ⟨9, 1⟩, ⟨9, 2⟩, ⟨8, 2⟩, ⟨7, 2⟩, ⟨6, 2⟩, ⟨5, 2⟩, ⟨4, 2⟩, ⟨3, 2⟩, ⟨2, 2⟩], Direction.UP, ⟨4, 0⟩, 140, 150, 6, false⟩
def T5R14 : Rng := ⟨[4, 1, 3, 1, 3, 0, 2, 0, 2, 1, 1, 1, 1, 0, 0, 0, 0, 1, 0, 2, 1, 2, 1, 3, 0, 3, 0, 4, 1, 4, 2, 4, 2, 3, 3, 3, 3, 4, 4, 4, 4, 3, 5, 3, 5, 4, 6, 4, 6, 3, 7, 3, 7, 4, 8, 4, 8, 3, 9, 3, 9, 4], 9⟩
def T5S15 : GameState := ⟨10, 5, [⟨4, 0⟩, ⟨5, 0⟩, ⟨5, 1⟩, ⟨6, 1⟩, ⟨6, 0⟩, ⟨7, 0⟩, ⟨7, 1⟩, ⟨8, 1⟩, ⟨8, 0⟩, ⟨9, 0⟩, ⟨9, 1⟩, ⟨9, 2⟩, ⟨8, 2⟩, ⟨7, 2⟩, ⟨6, 2⟩, ⟨5, 2⟩, ⟨4, 2⟩, ⟨3, 2⟩, ⟨2, 2⟩], Direction.LEFT, ⟨4, 1⟩, 150, 150, 6, false⟩
def T5R15 : Rng := ⟨[3, 1, 3, 0, 2, 0, 2, 1, 1, 1, 1, 0, 0, 0, 0, 1, 0, 2, 1, 2, 1, 3, 0, 3, 0, 4, 1, 4, 2, 4, 2, 3, 3, 3, 3, 4, 4, 4, 4, 3, 5, 3, 5, 4, 6, 4, 6, 3, 7, 3, 7, 4, 8, 4, 8, 3, 9, 3, 9, 4], 9⟩
def T5S16 : GameState := ⟨10, 5, [⟨4, 1⟩, ⟨4, 0⟩, ⟨5, 0⟩, ⟨5, 1⟩, ⟨6, 1⟩, ⟨6, 0⟩, ⟨7, 0⟩, ⟨7, 1⟩, ⟨8, 1⟩, ⟨8, 0⟩, ⟨9, 0⟩, ⟨9, 1⟩, ⟨9, 2⟩, ⟨8, 2⟩, ⟨7, 2⟩, ⟨6, 2⟩, ⟨5, 2⟩, ⟨4, 2⟩, ⟨3, 2⟩, ⟨2, 2⟩], Direction.DOWN, ⟨3, 1⟩, 160, 150, 6, false⟩
def T5R16 : Rng := ⟨[3, 0, 2, 0, 2, 1, 1, 1, 1, 0, 0, 0, 0, 1, 0, 2, 1, 2, 1, 3, 0, 3, 0, 4, 1, 4, 2, 4, 2, 3, 3, 3, 3, 4, 4, 4, 4, 3, 5, 3, 5, 4, 6, 4, 6, 3, 7, 3, 7, 4, 8, 4, 8, 3, 9, 3, 9, 4], 9⟩
def T5S17 : GameState := ⟨10, 5, [⟨3, 1⟩, ⟨4, 1⟩, ⟨4, 0⟩, ⟨5, 0⟩, ⟨5, 1⟩, ⟨6, 1⟩, ⟨6, 0⟩, ⟨7, 0⟩, ⟨7, 1⟩, ⟨8, 1⟩, ⟨8, 0⟩, ⟨9, 0⟩, ⟨9, 1⟩, ⟨9, 2⟩, ⟨8, 2⟩, ⟨7, 2⟩, ⟨6, 2⟩, ⟨5, 2⟩, ⟨4, 2⟩, ⟨3, 2⟩, ⟨2, 2⟩], Direction.LEFT, ⟨3, 0⟩, 170, 140, 7, false⟩
def T5R17 : Rng := ⟨[2, 0, 2, 1, 1, 1, 1, 0, 0, 0, 0, 1, 0, 2, 1, 2, 1, 3, 0, 3, 0, 4, 1, 4, 2, 4, 2, 3, 3, 3, 3, 4, 4, 4, 4, 3, 5, 3, 5, 4, 6, 4, 6, 3, 7, 3, 7, 4, 8, 4, 8, 3, 9, 3, 9, 4], 9⟩
def T5S18 : GameState := ⟨10, 5, [⟨3, 0⟩, ⟨3, 1⟩, ⟨4, 1⟩, ⟨4, 0⟩, ⟨5, 0⟩, ⟨5, 1⟩, ⟨6, 1⟩, ⟨6, 0⟩, ⟨7, 0⟩, ⟨7, 1⟩, ⟨8, 1⟩, ⟨8, 0⟩, ⟨9, 0⟩, ⟨9, 1⟩, ⟨9, 2⟩, ⟨8, 2⟩, ⟨7, 2⟩, ⟨6, 2⟩, ⟨5, 2⟩, ⟨4, 2⟩, ⟨3, 2⟩, ⟨2, 2⟩], Direction.UP, ⟨2, 0⟩, 180, 140, 7, false⟩
def T5R18 : Rng := ⟨[2, 1, 1, 1, 1, 0, 0, 0, 0, 1, 0, 2, 1, 2, 1, 3, 0, 3, 0, 4, 1, 4, 2, 4, 2, 3, 3, 3, 3, 4, 4, 4, 4, 3, 5, 3, 5, 4, 6, 4, 6, 3, 7, 3, 7, 4, 8, 4, 8, 3, 9, 3, 9, 4], 9⟩
def T5S19 : GameState := ⟨10, 5, [⟨2, 0⟩, ⟨3, 0⟩, ⟨3, 1⟩, ⟨4, 1⟩, ⟨4, 0⟩, ⟨5, 0⟩, ⟨5, 1⟩, ⟨6, 1⟩, ⟨6, 0⟩, ⟨7, 0⟩, ⟨7, 1⟩, ⟨8, 1⟩, ⟨8, 0⟩, ⟨9, 0⟩, ⟨9, 1⟩, ⟨9, 2⟩, ⟨8, 2⟩, ⟨7, 2⟩, ⟨6, 2⟩, ⟨5, 2⟩, ⟨4, 2⟩, ⟨3, 2⟩, ⟨2, 2⟩], Direction.LEFT, ⟨2, 1⟩, 190, 140, 7, false⟩
def T5R19 : Rng := ⟨[1, 1, 1, 0, 0, 0, 0, 1, 0, 2, 1, 2, 1, 3, 0, 3, 0, 4, 1, 4, 2, 4, 2, 3, 3, 3, 3, 4, 4, 4, 4, 3, 5, 3, 5, 4, 6, 4, 6, 3, 7, 3, 7, 4, 8, 4, 8, 3, 9, 3, 9, 4], 9⟩
def T5S20 : GameState := ⟨10, 5, [⟨2, 1⟩, ⟨2, 0⟩, ⟨3, 0⟩, ⟨3, 1⟩, ⟨4, 1⟩, ⟨4, 0⟩, ⟨5, 0⟩, ⟨5, 1⟩, ⟨6, 1⟩, ⟨6, 0⟩, ⟨7, 0⟩, ⟨7, 1⟩, ⟨8, 1⟩, ⟨8, 0⟩, ⟨9, 0⟩, ⟨9, 1⟩, ⟨9, 2⟩, ⟨8, 2⟩, ⟨7, 2⟩, ⟨6, 2⟩, ⟨5, 2⟩, ⟨4, 2⟩, ⟨3, 2⟩, ⟨2, 2⟩], Direction.DOWN, ⟨1, 1⟩, 200, 130, 8, false⟩
def T5R20 : Rng := ⟨[1, 0, 0, 0, 0, 1, 0, 2, 1, 2, 1, 3, 0, 3, 0, 4, 1, 4, 2, 4, 2, 3, 3, 3, 3, 4, 4, 4, 4, 3, 5, 3, 5, 4, 6, 4, 6, 3, 7, 3, 7, 4, 8, 4, 8, 3, 9, 3, 9, 4], 9⟩
def T5S21 : GameState := ⟨10, 5, [⟨1, 1⟩, ⟨2, 1⟩, ⟨2, 0⟩, ⟨3, 0⟩, ⟨3, 1⟩, ⟨4, 1⟩, ⟨4, 0⟩, ⟨5, 0⟩, ⟨5, 1⟩, ⟨6, 1⟩, ⟨6, 0⟩, ⟨7, 0⟩, ⟨7, 1⟩, ⟨8, 1⟩, ⟨8, 0⟩, ⟨9, 0⟩, ⟨9, 1⟩, ⟨9, 2⟩, ⟨8, 2⟩, ⟨7, 2⟩, ⟨6, 2⟩, ⟨5, 2⟩, ⟨4, 2⟩, ⟨3, 2⟩, ⟨2, 2⟩], Direction.LEFT, ⟨1, 0⟩, 210, 130, 8, false⟩
def T5R21 : Rng := ⟨[0, 0, 0, 1, 0, 2, 1, 2, 1, 3, 0, 3, 0, 4, 1, 4, 2, 4, 2, 3, 3, 3, 3, 4, 4, 4, 4, 3, 5, 3, 5, 4, 6, 4, 6, 3, 7, 3, 7, 4, 8, 4, 8, 3, 9, 3, 9, 4], 9⟩
def T5S22 : GameState := ⟨10, 5, [⟨1, 0⟩, ⟨1, 1⟩, ⟨2, 1⟩, ⟨2, 0⟩, ⟨3, 0⟩, ⟨3, 1⟩, ⟨4, 1⟩, ⟨4, 0⟩, ⟨5, 0⟩, ⟨5, 1⟩, ⟨6, 1⟩, ⟨6, 0⟩, ⟨7, 0⟩, ⟨7, 1⟩, ⟨8, 1⟩, ⟨8, 0⟩, ⟨9, 0⟩, ⟨9, 1⟩, ⟨9, 2⟩, ⟨8, 2⟩, ⟨7, 2⟩, ⟨6, 2⟩, ⟨5, 2⟩, ⟨4, 2⟩, ⟨3, 2⟩, ⟨2, 2⟩], Direction.UP, ⟨0, 0⟩, 220, 130, 8, false⟩
def T5R22 : Rng := ⟨[0, 1, 0, 2, 1, 2, 1, 3, 0, 3, 0, 4, 1, 4, 2, 4, 2, 3, 3, 3, 3, 4, 4, 4, 4, 3, 5, 3, 5, 4, 6, 4, 6, 3, 7, 3, 7, 4, 8, 4, 8, 3, 9, 3, 9, 4], 9⟩
def T5S23 : GameState := ⟨10, 5, [⟨0, 0⟩, ⟨1, 0⟩, ⟨1, 1⟩, ⟨2, 1⟩, ⟨2, 0⟩, ⟨3, 0⟩, ⟨3, 1⟩, ⟨4, 1⟩, ⟨4, 0⟩, ⟨5, 0⟩, ⟨5, 1⟩, ⟨6, 1⟩, ⟨6, 0⟩, ⟨7, 0⟩, ⟨7, 1⟩, ⟨8, 1⟩, ⟨8, 0⟩, ⟨9, 0⟩, ⟨9, 1⟩, ⟨9, 2⟩, ⟨8, 2⟩, ⟨7, 2⟩, ⟨6, 2⟩, ⟨5, 2⟩, ⟨4, 2⟩, ⟨3, 2⟩, ⟨2, 2⟩], Direction.LEFT, ⟨0, 1⟩, 230, 120, 9, false⟩
def T5R23 : Rng := ⟨[0, 2, 1, 2, 1, 3, 0, 3, 0, 4, 1, 4, 2, 4, 2, 3, 3, 3, 3, 4, 4, 4, 4, 3, 5, 3, 5, 4, 6, 4, 6, 3, 7, 3, 7, 4, 8, 4, 8, 3, 9, 3, 9, 4], 9⟩
def T5S24 : GameState := ⟨10, 5, [⟨0, 1⟩, ⟨0, 0⟩, ⟨1, 0⟩, ⟨1, 1⟩, ⟨2, 1⟩, ⟨2, 0⟩, ⟨3, 0⟩, ⟨3, 1⟩, ⟨4, 1⟩, ⟨4, 0⟩, ⟨5, 0⟩, ⟨5, 1⟩, ⟨6, 1⟩, ⟨6, 0⟩, ⟨7, 0⟩, ⟨7, 1⟩, ⟨8, 1⟩, ⟨8, 0⟩, ⟨9, 0⟩, ⟨9, 1⟩, ⟨9, 2⟩, ⟨8, 2⟩, ⟨7, 2⟩, ⟨6, 2⟩, ⟨5, 2⟩, ⟨4, 2⟩, ⟨3, 2⟩, ⟨2, 2⟩], Direction.DOWN, ⟨0, 2⟩, 240, 120, 9, false⟩
def T5R24 : Rng := ⟨[1, 2, 1, 3, 0, 3, 0, 4, 1, 4, 2, 4, 2, 3, 3, 3, 3, 4, 4, 4, 4, 3, 5, 3, 5, 4, 6, 4, 6, 3, 7, 3, 7, 4, 8, 4, 8, 3, 9, 3, 9, 4], 9⟩
def T5S25 : GameState := ⟨10, 5, [⟨0, 2⟩, ⟨0, 1⟩, ⟨0, 0⟩, ⟨1, 0⟩, ⟨1, 1⟩, ⟨2, 1⟩, ⟨2, 0⟩, ⟨3, 0⟩, ⟨3, 1⟩, ⟨4, 1⟩, ⟨4, 0⟩, ⟨5, 0⟩, ⟨5, 1⟩, ⟨6, 1⟩, ⟨6, 0⟩, ⟨7, 0⟩, ⟨7, 1⟩, ⟨8, 1⟩, ⟨8, 0⟩, ⟨9, 0⟩, ⟨9, 1⟩, ⟨9, 2⟩, ⟨8, 2⟩, ⟨7, 2⟩, ⟨6, 2⟩, ⟨5, 2⟩, ⟨4, 2⟩, ⟨3, 2⟩, ⟨2, 2⟩], Direction.DOWN, ⟨1, 2⟩, 250, 120, 9, false⟩
def T5R25 : Rng := ⟨[1, 3, 0, 3, 0, 4, 1, 4, 2, 4, 2, 3, 3, 3, 3, 4, 4, 4, 4, 3, 5, 3, 5, 4, 6, 4, 6, 3, 7, 3, 7, 4, 8, 4, 8, 3, 9, 3, 9, 4], 9⟩
def T5S26 : GameState := ⟨10, 5, [⟨1, 2⟩, ⟨0, 2⟩, ⟨0, 1⟩, ⟨0, 0⟩, ⟨1, 0⟩, ⟨1, 1⟩, ⟨2, 1⟩, ⟨2, 0⟩, ⟨3, 0⟩, ⟨3, 1⟩, ⟨4, 1⟩, ⟨4, 0⟩, ⟨5, 0⟩, ⟨5, 1⟩, ⟨6, 1⟩, ⟨6, 0⟩, ⟨7, 0⟩, ⟨7, 1⟩, ⟨8, 1⟩, ⟨8, 0⟩, ⟨9, 0⟩, ⟨9, 1⟩, ⟨9, 2⟩, ⟨8, 2⟩, ⟨7, 2⟩, ⟨6, 2⟩, ⟨5, 2⟩, ⟨4, 2⟩, ⟨3, 2⟩, ⟨2, 2⟩], Direction.RIGHT, ⟨1, 3⟩, 260, 110, 10, false⟩
def T5R26 : Rng := ⟨[0, 3, 0, 4, 1, 4, 2, 4, 2, 3, 3, 3, 3, 4, 4, 4, 4, 3, 5, 3, 5, 4, 6, 4, 6, 3, 7, 3, 7, 4, 8, 4, 8, 3, 9, 3, 9, 4], 9⟩
def T5S27 : GameState := ⟨10, 5, [⟨1, 3⟩, ⟨1, 2⟩, ⟨0, 2⟩, ⟨0, 1⟩, ⟨0, 0⟩, ⟨1, 0⟩, ⟨1, 1⟩, ⟨2, 1⟩, ⟨2, 0⟩, ⟨3, 0⟩, ⟨3, 1⟩, ⟨4, 1⟩, ⟨4, 0⟩, ⟨5, 0⟩, ⟨5, 1⟩, ⟨6, 1⟩, ⟨6, 0⟩, ⟨7, 0⟩, ⟨7, 1⟩, ⟨8, 1⟩, ⟨8, 0⟩, ⟨9, 0⟩, ⟨9, 1⟩, ⟨9, 2⟩, ⟨8, 2⟩, ⟨7, 2⟩, ⟨6, 2⟩, ⟨5, 2⟩, ⟨4, 2⟩, ⟨3, 2⟩, ⟨2, 2⟩], Direction.DOWN, ⟨0, 3⟩, 270, 110, 10, false⟩
def T5R27 : Rng := ⟨[0, 4, 1, 4, 2, 4, 2, 3, 3, 3, 3, 4, 4, 4, 4, 3, 5, 3, 5, 4, 6, 4, 6, 3, 7, 3, 7, 4, 8, 4, 8, 3, 9, 3, 9, 4], 9⟩
def T5S28 : GameState := ⟨10, 5, [⟨0, 3⟩, ⟨1, 3⟩, ⟨1, 2⟩, ⟨0, 2⟩, ⟨0, 1⟩, ⟨0, 0⟩, ⟨1, 0⟩, ⟨1, 1⟩, ⟨2, 1⟩, ⟨2, 0⟩, ⟨3, 0⟩, ⟨3, 1⟩, ⟨4, 1⟩, ⟨4, 0⟩, ⟨5, 0⟩, ⟨5, 1⟩, ⟨6, 1⟩, ⟨6, 0⟩, ⟨7, 0⟩, ⟨7, 1⟩, ⟨8, 1⟩, ⟨8, 0⟩, ⟨9, 0⟩, ⟨9, 1⟩, ⟨9, 2⟩, ⟨8, 2⟩, ⟨7, 2⟩, ⟨6, 2⟩, ⟨5, 2⟩, ⟨4, 2⟩, ⟨3, 2⟩, ⟨2, 2⟩], Direction.LEFT, ⟨0, 4⟩, 280, 110, 10, false⟩
def T5R28 : Rng := ⟨[1, 4, 2, 4, 2, 3, 3, 3, 3, 4, 4, 4, 4, 3, 5, 3, 5, 4, 6, 4, 6, 3, 7, 3, 7, 4, 8, 4, 8, 3, 9, 3, 9, 4], 9⟩
def T5S29 : GameState := ⟨10, 5, [⟨0, 4⟩, ⟨0, 3⟩, ⟨1, 3⟩, ⟨1, 2⟩, ⟨0, 2⟩, ⟨0, 1⟩, ⟨0, 0⟩, ⟨1, 0⟩, ⟨1, 1⟩, ⟨2, 1⟩, ⟨2, 0⟩, ⟨3, 0⟩, ⟨3, 1⟩, ⟨4, 1⟩, ⟨4, 0⟩, ⟨5, 0⟩, ⟨5, 1⟩, ⟨6, 1⟩, ⟨6, 0⟩, ⟨7, 0⟩, ⟨7, 1⟩, ⟨8, 1⟩, ⟨8, 0⟩, ⟨9, 0⟩, ⟨9, 1⟩, ⟨9, 2⟩, ⟨8, 2⟩, ⟨7, 2⟩, ⟨6, 2⟩, ⟨5, 2⟩, ⟨4, 2⟩, ⟨3, 2⟩, ⟨2, 2⟩], Direction.DOWN, ⟨1, 4⟩, 290, 100, 11, false⟩
def T5R29 : Rng := ⟨[2, 4, 2, 3, 3, 3, 3, 4, 4, 4, 4, 3, 5, 3, 5, 4, 6, 4, 6, 3, 7, 3, 7, 4, 8, 4, 8, 3, 9, 3, 9, 4], 9⟩
def T5S30 : GameState := ⟨10, 5, [⟨1, 4⟩, ⟨0, 4⟩, ⟨0, 3⟩, ⟨1, 3⟩, ⟨1, 2⟩, ⟨0, 2⟩, ⟨0, 1⟩, ⟨0, 0⟩, ⟨1, 0⟩, ⟨1, 1⟩, ⟨2, 1⟩, ⟨2, 0⟩, ⟨3, 0⟩, ⟨3, 1⟩, ⟨4, 1⟩, ⟨4, 0⟩, ⟨5, 0⟩, ⟨5, 1⟩, ⟨6, 1⟩, ⟨6, 0⟩, ⟨7, 0⟩, ⟨7, 1⟩, ⟨8, 1⟩, ⟨8, 0⟩, ⟨9, 0⟩, ⟨9, 1⟩, ⟨9, 2⟩, ⟨8, 2⟩, ⟨7, 2⟩, ⟨6, 2⟩, ⟨5, 2⟩, ⟨4, 2⟩, ⟨3, 2⟩, ⟨2, 2⟩], Direction.RIGHT, ⟨2, 4⟩, 300, 100, 11, false⟩
def T5R30 : Rng := ⟨[2, 3, 3, 3, 3, 4, 4, 4, 4, 3, 5, 3, 5, 4, 6, 4, 6, 3, 7, 3, 7, 4, 8, 4, 8, 3, 9, 3, 9, 4], 9⟩
def T5S31 : GameState := ⟨10, 5, [⟨2, 4⟩, ⟨1, 4⟩, ⟨0, 4⟩, ⟨0, 3⟩, ⟨1, 3⟩, ⟨1, 2⟩, ⟨0, 2⟩, ⟨0, 1⟩, ⟨0, 0⟩, ⟨1, 0⟩, ⟨1, 1⟩, ⟨2, 1⟩, ⟨2, 0⟩, ⟨3, 0⟩, ⟨3, 1⟩, ⟨4, 1⟩, ⟨4, 0⟩, ⟨5, 0⟩, ⟨5, 1⟩, ⟨6, 1⟩, ⟨6, 0⟩, ⟨7, 0⟩, ⟨7, 1⟩, ⟨8, 1⟩, ⟨8, 0⟩, ⟨9, 0⟩, ⟨9, 1⟩, ⟨9, 2⟩, ⟨8, 2⟩, ⟨7, 2⟩, ⟨6, 2⟩, ⟨5, 2⟩, ⟨4, 2⟩, ⟨3, 2⟩, ⟨2, 2⟩], Direction.RIGHT, ⟨2, 3⟩, 310, 100, 11, false⟩
def T5R31 : Rng := ⟨[3, 3, 3, 4, 4, 4, 4, 3, 5, 3, 5, 4, 6, 4, 6, 3, 7, 3, 7, 4, 8, 4, 8, 3, 9, 3, 9, 4], 9⟩
def T5S32 : GameState := ⟨10, 5, [⟨2, 3⟩, ⟨2, 4⟩, ⟨1, 4⟩, ⟨0, 4⟩, ⟨0, 3⟩, ⟨1, 3⟩, ⟨1, 2⟩, ⟨0, 2⟩, ⟨0, 1⟩, ⟨0, 0⟩, ⟨1, 0⟩, ⟨1, 1⟩, ⟨2, 1⟩, ⟨2, 0⟩, ⟨3, 0⟩, ⟨3, 1⟩, ⟨4, 1⟩, ⟨4, 0⟩, ⟨5, 0⟩, ⟨5, 1⟩, ⟨6, 1⟩, ⟨6, 0⟩, ⟨7, 0⟩, ⟨7, 1⟩, ⟨8, 1⟩, ⟨8, 0⟩, ⟨9, 0⟩, ⟨9, 1⟩, ⟨9, 2⟩, ⟨8, 2⟩, ⟨7, 2⟩, ⟨6, 2⟩, ⟨5, 2⟩, ⟨4, 2⟩, ⟨3, 2⟩, ⟨2, 2⟩], Direction.UP, ⟨3, 3⟩, 320, 90, 12, false⟩
def T5R32 : Rng := ⟨[3, 4, 4, 4, 4, 3, 5, 3, 5, 4, 6, 4, 6, 3, 7, 3, 7, 4, 8, 4, 8, 3, 9, 3, 9, 4], 9⟩
def T5S33 : GameState := ⟨10, 5, [⟨3, 3⟩, ⟨2, 3⟩, ⟨2, 4⟩, ⟨1, 4⟩, ⟨0, 4⟩, ⟨0, 3⟩, ⟨1, 3⟩, ⟨1, 2⟩, ⟨0, 2⟩, ⟨0, 1⟩, ⟨0, 0⟩, ⟨1, 0⟩, ⟨1, 1⟩, ⟨2, 1⟩, ⟨2, 0⟩, ⟨3, 0⟩, ⟨3, 1⟩, ⟨4, 1⟩, ⟨4, 0⟩, ⟨5, 0⟩, ⟨5, 1⟩, ⟨6, 1⟩, ⟨6, 0⟩, ⟨7, 0⟩, ⟨7, 1⟩, ⟨8, 1⟩, ⟨8, 0⟩, ⟨9, 0⟩, ⟨9, 1⟩, ⟨9, 2⟩, ⟨8, 2⟩, ⟨7, 2⟩, ⟨6, 2⟩, ⟨5, 2⟩, ⟨4, 2⟩, ⟨3, 2⟩, ⟨2, 2⟩], Direction.RIGHT, ⟨3, 4⟩, 330, 90, 12, false⟩
def T5R33 : Rng := ⟨[4, 4, 4, 3, 5, 3, 5, 4, 6, 4, 6, 3, 7, 3, 7, 4, 8, 4, 8, 3, 9, 3, 9, 4], 9⟩
def T5S34 : GameState := ⟨10, 5, [⟨3, 4⟩, ⟨3, 3⟩, ⟨2, 3⟩, ⟨2, 4⟩, ⟨1, 4⟩, ⟨0, 4⟩, ⟨0, 3⟩, ⟨1, 3⟩, ⟨1, 2⟩, ⟨0, 2⟩, ⟨0, 1⟩, ⟨0, 0⟩, ⟨1, 0⟩, ⟨1, 1⟩, ⟨2, 1⟩, ⟨2, 0⟩, ⟨3, 0⟩, ⟨3, 1⟩, ⟨4, 1⟩, ⟨4, 0⟩, ⟨5, 0⟩, ⟨5, 1⟩, ⟨6, 1⟩, ⟨6, 0⟩, ⟨7, 0⟩, ⟨7, 1⟩, ⟨8, 1⟩, ⟨8, 0⟩, ⟨9, 0⟩, ⟨9, 1⟩, ⟨9, 2⟩, ⟨8, 2⟩, ⟨7, 2⟩, ⟨6, 2⟩, ⟨5, 2⟩, ⟨4, 2⟩, ⟨3, 2⟩, ⟨2, 2⟩], Direction.DOWN, ⟨4, 4⟩, 340, 90, 12, false⟩
def T5R34 : Rng := ⟨[4, 3, 5, 3, 5, 4, 6, 4, 6, 3, 7, 3, 7, 4, 8, 4, 8, 3, 9, 3, 9, 4], 9⟩
def T5S35 : GameState := ⟨10, 5, [⟨4, 4⟩, ⟨3, 4⟩, ⟨3, 3⟩, ⟨2, 3⟩, ⟨2, 4⟩, ⟨1, 4⟩, ⟨0, 4⟩, ⟨0, 3⟩, ⟨1, 3⟩, ⟨1, 2⟩, ⟨0, 2⟩, ⟨0, 1⟩, ⟨0, 0⟩, ⟨1, 0⟩, ⟨1, 1⟩, ⟨2, 1⟩, ⟨2, 0⟩, ⟨3, 0⟩, ⟨3, 1⟩, ⟨4, 1⟩, ⟨4, 0⟩, ⟨5, 0⟩, ⟨5, 1⟩, ⟨6, 1⟩, ⟨6, 0⟩, ⟨7, 0⟩, ⟨7, 1⟩, ⟨8, 1⟩, ⟨8, 0⟩, ⟨9, 0⟩, ⟨9, 1⟩, ⟨9, 2⟩, ⟨8, 2⟩, ⟨7, 2⟩, ⟨6, 2⟩, ⟨5, 2⟩, ⟨4, 2⟩, ⟨3, 2⟩, ⟨2, 2⟩], Direction.RIGHT, ⟨4, 3⟩, 350, 80, 13, false⟩
def T5R35 : Rng := ⟨[5, 3, 5, 4, 6, 4, 6, 3, 7, 3, 7, 4, 8, 4, 8, 3, 9, 3, 9, 4], 9⟩
def T5S36 : GameState := ⟨10, 5, [⟨4, 3⟩, ⟨4, 4⟩, ⟨3, 4⟩, ⟨3, 3⟩, ⟨2, 3⟩, ⟨2, 4⟩, ⟨1, 4⟩, ⟨0, 4⟩, ⟨0, 3⟩, ⟨1, 3⟩, ⟨1, 2⟩, ⟨0, 2⟩, ⟨0, 1⟩, ⟨0, 0⟩, ⟨1, 0⟩, ⟨1, 1⟩, ⟨2, 1⟩, ⟨2, 0⟩, ⟨3, 0⟩, ⟨3, 1⟩, ⟨4, 1⟩, ⟨4, 0⟩, ⟨5, 0⟩, ⟨5, 1⟩, ⟨6, 1⟩, ⟨6, 0⟩, ⟨7, 0⟩, ⟨7, 1⟩, ⟨8, 1⟩, ⟨8, 0⟩, ⟨9, 0⟩, ⟨9, 1⟩, ⟨9, 2⟩, ⟨8, 2⟩, ⟨7, 2⟩, ⟨6, 2⟩, ⟨5, 2⟩, ⟨4, 2⟩, ⟨3, 2⟩, ⟨2, 2⟩], Direction.UP, ⟨5, 3⟩, 360, 80, 13, false⟩
def T5R36 : Rng := ⟨[5, 4, 6, 4, 6, 3, 7, 3, 7, 4, 8, 4, 8, 3, 9, 3, 9, 4], 9⟩
def T5S37 : GameState := ⟨10, 5, [⟨5, 3⟩, ⟨4, 3⟩, ⟨4, 4⟩, ⟨3, 4⟩, ⟨3, 3⟩, ⟨2, 3⟩, ⟨2, 4⟩, ⟨1, 4⟩, ⟨0, 4⟩, ⟨0, 3⟩, ⟨1, 3⟩, ⟨1, 2⟩, ⟨0, 2⟩, ⟨0, 1⟩, ⟨0, 0⟩, ⟨1, 0⟩, ⟨1, 1⟩, ⟨2, 1⟩, ⟨2, 0⟩, ⟨3, 0⟩, ⟨3, 1⟩, ⟨4, 1⟩, ⟨4, 0⟩, ⟨5, 0⟩, ⟨5, 1⟩, ⟨6, 1⟩, ⟨6, 0⟩, ⟨7, 0⟩, ⟨7, 1⟩, ⟨8, 1⟩, ⟨8, 0⟩, ⟨9, 0⟩, ⟨9, 1⟩, ⟨9, 2⟩, ⟨8, 2⟩, ⟨7, 2⟩, ⟨6, 2⟩, ⟨5, 2⟩, ⟨4, 2⟩, ⟨3, 2⟩, ⟨2, 2⟩], Direction.RIGHT, ⟨5, 4⟩, 370, 80, 13, false⟩
def T5R37 : Rng := ⟨[6, 4, 6, 3, 7, 3, 7, 4, 8, 4, 8, 3, 9, 3, 9, 4], 9⟩
def T5S38 : GameState := ⟨10, 5, [⟨5, 4⟩, ⟨5, 3⟩, ⟨4, 3⟩, ⟨4, 4⟩, ⟨3, 4⟩, ⟨3, 3⟩, ⟨2, 3⟩, ⟨2, 4⟩, ⟨1, 4⟩, ⟨0, 4⟩, ⟨0, 3⟩, ⟨1, 3⟩, ⟨1, 2⟩, ⟨0, 2⟩, ⟨0, 1⟩, ⟨0, 0⟩, ⟨1, 0⟩, ⟨1, 1⟩, ⟨2, 1⟩, ⟨2, 0⟩, ⟨3, 0⟩, ⟨3, 1⟩, ⟨4, 1⟩, ⟨4, 0⟩, ⟨5, 0⟩, ⟨5, 1⟩, ⟨6, 1⟩, ⟨6, 0⟩, ⟨7, 0⟩, ⟨7, 1⟩, ⟨8, 1⟩, ⟨8, 0⟩, ⟨9, 0⟩, ⟨9, 1⟩, ⟨9, 2⟩, ⟨8, 2⟩, ⟨7, 2⟩, ⟨6, 2⟩, ⟨5, 2⟩, ⟨4, 2⟩, ⟨3, 2⟩, ⟨2, 2⟩], Direction.DOWN, ⟨6, 4⟩, 380, 70, 14, false⟩
def T5R38 : Rng := ⟨[6, 3, 7, 3, 7, 4, 8, 4, 8, 3, 9, 3, 9, 4], 9⟩
def T5S39 : GameState := ⟨10, 5, [⟨6, 4⟩, ⟨5, 4⟩, ⟨5, 3⟩, ⟨4, 3⟩, ⟨4, 4⟩, ⟨3, 4⟩, ⟨3, 3⟩, ⟨2, 3⟩, ⟨2, 4⟩, ⟨1, 4⟩, ⟨0, 4⟩, ⟨0, 3⟩, ⟨1, 3⟩, ⟨1, 2⟩, ⟨0, 2⟩, ⟨0, 1⟩, ⟨0, 0⟩, ⟨1, 0⟩, ⟨1, 1⟩, ⟨2, 1⟩, ⟨2, 0⟩, ⟨3, 0⟩, ⟨3, 1⟩, ⟨4, 1⟩, ⟨4, 0⟩, ⟨5, 0⟩, ⟨5, 1⟩, ⟨6, 1⟩, ⟨6, 0⟩, ⟨7, 0⟩, ⟨7, 1⟩, ⟨8, 1⟩, ⟨8, 0⟩, ⟨9, 0⟩, ⟨9, 1⟩, ⟨9, 2⟩, ⟨8, 2⟩, ⟨7, 2⟩, ⟨6, 2⟩, ⟨5, 2⟩, ⟨4, 2⟩, ⟨3, 2⟩, ⟨2, 2⟩], Direction.RIGHT, ⟨6, 3⟩, 390, 70, 14, false⟩
def T5R39 : Rng := ⟨[7, 3, 7, 4, 8, 4, 8, 3, 9, 3, 9, 4], 9⟩
def T5S40 : GameState := ⟨10, 5, [⟨6, 3⟩, ⟨6, 4⟩, ⟨5, 4⟩, ⟨5, 3⟩, ⟨4, 3⟩, ⟨4, 4⟩, ⟨3, 4⟩, ⟨3, 3⟩, ⟨2, 3⟩, ⟨2, 4⟩, ⟨1, 4⟩, ⟨0, 4⟩, ⟨0, 3⟩, ⟨1, 3⟩, ⟨1, 2⟩, ⟨0, 2⟩, ⟨0, 1⟩, ⟨0, 0⟩, ⟨1, 0⟩, ⟨1, 1⟩, ⟨2, 1⟩, ⟨2, 0⟩, ⟨3, 0⟩, ⟨3, 1⟩, ⟨4, 1⟩, ⟨4, 0⟩, ⟨5, 0⟩, ⟨5, 1⟩, ⟨6, 1⟩, ⟨6, 0⟩, ⟨7, 0⟩, ⟨7, 1⟩, ⟨8, 1⟩, ⟨8, 0⟩, ⟨9, 0⟩, ⟨9, 1⟩, ⟨9, 2⟩, ⟨8, 2⟩, ⟨7, 2⟩, ⟨6, 2⟩, ⟨5, 2⟩, ⟨4, 2⟩, ⟨3, 2⟩, ⟨2, 2⟩], Direction.UP, ⟨7, 3⟩, 400, 70, 14, false⟩
def T5R40 : Rng := ⟨[7, 4, 8, 4, 8, 3, 9, 3, 9, 4], 9⟩
def T5S41 : GameState := ⟨10, 5, [⟨7, 3⟩, ⟨6, 3⟩, ⟨6, 4⟩, ⟨5, 4⟩, ⟨5, 3⟩, ⟨4, 3⟩, ⟨4, 4⟩, ⟨3, 4⟩, ⟨3, 3⟩, ⟨2, 3⟩, ⟨2, 4⟩, ⟨1, 4⟩, ⟨0, 4⟩, ⟨0, 3⟩, ⟨1, 3⟩, ⟨1, 2⟩, ⟨0, 2⟩, ⟨0, 1⟩, ⟨0, 0⟩, ⟨1, 0⟩, ⟨1, 1⟩, ⟨2, 1⟩, ⟨2, 0⟩, ⟨3, 0⟩, ⟨3, 1⟩, ⟨4, 1⟩, ⟨4, 0⟩, ⟨5, 0⟩, ⟨5, 1⟩, ⟨6, 1⟩, ⟨6, 0⟩, ⟨7, 0⟩, ⟨7, 1⟩, ⟨8, 1⟩, ⟨8, 0⟩, ⟨9, 0⟩, ⟨9, 1⟩, ⟨9, 2⟩, ⟨8, 2⟩, ⟨7, 2⟩, ⟨6, 2⟩, ⟨5, 2⟩, ⟨4, 2⟩, ⟨3, 2⟩, ⟨2, 2⟩], Direction.RIGHT, ⟨7, 4⟩, 410, 60, 15, false⟩
def T5R41 : Rng := ⟨[8, 4, 8, 3, 9, 3, 9, 4], 9⟩
def T5S42 : GameState := ⟨10, 5, [⟨7, 4⟩, ⟨7, 3⟩, ⟨6, 3⟩, ⟨6, 4⟩, ⟨5, 4⟩, ⟨5, 3⟩, ⟨4, 3⟩, ⟨4, 4⟩, ⟨3, 4⟩, ⟨3, 3⟩, ⟨2, 3⟩, ⟨2, 4⟩, ⟨1, 4⟩, ⟨0, 4⟩, ⟨0, 3⟩, ⟨1, 3⟩, ⟨1, 2⟩, ⟨0, 2⟩, ⟨0, 1⟩, ⟨0, 0⟩, ⟨1, 0⟩, ⟨1, 1⟩, ⟨2, 1⟩, ⟨2, 0⟩, ⟨3, 0⟩, ⟨3, 1⟩, ⟨4, 1⟩, ⟨4, 0⟩, ⟨5, 0⟩, ⟨5, 1⟩, ⟨6, 1⟩, ⟨6, 0⟩, ⟨7, 0⟩, ⟨7, 1⟩, ⟨8, 1⟩, ⟨8, 0⟩, ⟨9, 0⟩, ⟨9, 1⟩, ⟨9, 2⟩, ⟨8, 2⟩, ⟨7, 2⟩, ⟨6, 2⟩, ⟨5, 2⟩, ⟨4, 2⟩, ⟨3, 2⟩, ⟨2, 2⟩], Direction.DOWN, ⟨8, 4⟩, 420, 60, 15, false⟩
def T5R42 : Rng := ⟨[8, 3, 9, 3, 9, 4], 9⟩
def T5S43 : GameState := ⟨10, 5, [⟨8, 4⟩, ⟨7, 4⟩, ⟨7, 3⟩, ⟨6, 3⟩, ⟨6, 4⟩, ⟨5, 4⟩, ⟨5, 3⟩, ⟨4, 3⟩, ⟨4, 4⟩, ⟨3, 4⟩, ⟨3, 3⟩, ⟨2, 3⟩, ⟨2, 4⟩, ⟨1, 4⟩, ⟨0, 4⟩, ⟨0, 3⟩, ⟨1, 3⟩, ⟨1, 2⟩, ⟨0, 2⟩, ⟨0, 1⟩, ⟨0, 0⟩, ⟨1, 0⟩, ⟨1, 1⟩, ⟨2, 1⟩, ⟨2, 0⟩, ⟨3, 0⟩, ⟨3, 1⟩, ⟨4, 1⟩, ⟨4, 0⟩, ⟨5, 0⟩, ⟨5, 1⟩, ⟨6, 1⟩, ⟨6, 0⟩, ⟨7, 0⟩, ⟨7, 1⟩, ⟨8, 1⟩, ⟨8, 0⟩, ⟨9, 0⟩, ⟨9, 1⟩, ⟨9, 2⟩, ⟨8, 2⟩, ⟨7, 2⟩, ⟨6, 2⟩, ⟨5, 2⟩, ⟨4, 2⟩, ⟨3, 2⟩, ⟨2, 2⟩], Direction.RIGHT, ⟨8, 3⟩, 430, 60, 15, false⟩
def T5R43 : Rng := ⟨[9, 3, 9, 4], 9⟩
def T5S44 : GameState := ⟨10, 5, [⟨8, 3⟩, ⟨8, 4⟩, ⟨7, 4⟩, ⟨7, 3⟩, ⟨6, 3⟩, ⟨6, 4⟩, ⟨5, 4⟩, ⟨5, 3⟩, ⟨4, 3⟩, ⟨4, 4⟩, ⟨3, 4⟩, ⟨3, 3⟩, ⟨2, 3⟩, ⟨2, 4⟩, ⟨1, 4⟩, ⟨0, 4⟩, ⟨0, 3⟩, ⟨1, 3⟩, ⟨1, 2⟩, ⟨0, 2⟩, ⟨0, 1⟩, ⟨0, 0⟩, ⟨1, 0⟩, ⟨1, 1⟩, ⟨2, 1⟩, ⟨2, 0⟩, ⟨3, 0⟩, ⟨3, 1⟩, ⟨4, 1⟩, ⟨4, 0⟩, ⟨5, 0⟩, ⟨5, 1⟩, ⟨6, 1⟩, ⟨6, 0⟩, ⟨7, 0⟩, ⟨7, 1⟩, ⟨8, 1⟩, ⟨8, 0⟩, ⟨9, 0⟩, ⟨9, 1⟩, ⟨9, 2⟩, ⟨8, 2⟩, ⟨7, 2⟩, ⟨6, 2⟩, ⟨5, 2⟩, ⟨4, 2⟩, ⟨3, 2⟩, ⟨2, 2⟩], Direction.UP, ⟨9, 3⟩, 440, 50, 16, false⟩
def T5R44 : Rng := ⟨[9, 4], 9⟩
def T5S45 : GameState := ⟨10, 5, [⟨9, 3⟩, ⟨8, 3⟩, ⟨8, 4⟩, ⟨7, 4⟩, ⟨7, 3⟩, ⟨6, 3⟩, ⟨6, 4⟩, ⟨5, 4⟩, ⟨5, 3⟩, ⟨4, 3⟩, ⟨4, 4⟩, ⟨3, 4⟩, ⟨3, 3⟩, ⟨2, 3⟩, ⟨2, 4⟩, ⟨1, 4⟩, ⟨0, 4⟩, ⟨0, 3⟩, ⟨1, 3⟩, ⟨1, 2⟩, ⟨0, 2⟩, ⟨0, 1⟩, ⟨0, 0⟩, ⟨1, 0⟩, ⟨1, 1⟩, ⟨2, 1⟩, ⟨2, 0⟩, ⟨3, 0⟩, ⟨3, 1⟩, ⟨4, 1⟩, ⟨4, 0⟩, ⟨5, 0⟩, ⟨5, 1⟩, ⟨6, 1⟩, ⟨6, 0⟩, ⟨7, 0⟩, ⟨7, 1⟩, ⟨8, 1⟩, ⟨8, 0⟩, ⟨9, 0⟩, ⟨9, 1⟩, ⟨9, 2⟩, ⟨8, 2⟩, ⟨7, 2⟩, ⟨6, 2⟩, ⟨5, 2⟩, ⟨4, 2⟩, ⟨3, 2⟩, ⟨2, 2⟩], Direction.RIGHT, ⟨9, 4⟩, 450, 50, 16, false⟩
def T5R45 : Rng := ⟨[], 9⟩
def T5S46 : GameState := ⟨10, 5, [⟨9, 4⟩, ⟨9, 3⟩, ⟨8, 3⟩, ⟨8, 4⟩, ⟨7, 4⟩, ⟨7, 3⟩, ⟨6, 3⟩, ⟨6, 4⟩, ⟨5, 4⟩, ⟨5, 3⟩, ⟨4, 3⟩, ⟨4, 4⟩, ⟨3, 4⟩, ⟨3, 3⟩, ⟨2, 3⟩, ⟨2, 4⟩, ⟨1, 4⟩, ⟨0, 4⟩, ⟨0, 3⟩, ⟨1, 3⟩, ⟨1, 2⟩, ⟨0, 2⟩, ⟨0, 1⟩, ⟨0, 0⟩, ⟨1, 0⟩, ⟨1, 1⟩, ⟨2, 1⟩, ⟨2, 0⟩, ⟨3, 0⟩, ⟨3, 1⟩, ⟨4, 1⟩, ⟨4, 0⟩, ⟨5, 0⟩, ⟨5, 1⟩, ⟨6, 1⟩, ⟨6, 0⟩, ⟨7, 0⟩, ⟨7, 1⟩, ⟨8, 1⟩, ⟨8, 0⟩, ⟨9, 0⟩, ⟨9, 1⟩, ⟨9, 2⟩, ⟨8, 2⟩, ⟨7, 2⟩, ⟨6, 2⟩, ⟨5, 2⟩, ⟨4, 2⟩, ⟨3, 2⟩, ⟨2, 2⟩], Direction.DOWN, ⟨9, 4⟩, 460, 50, 16, false⟩
def T5R46 : Rng := ⟨[], 9⟩
def T5S45D : GameState := ⟨10, 5, [⟨9, 3⟩, ⟨8, 3⟩, ⟨8, 4⟩, ⟨7, 4⟩, ⟨7, 3⟩, ⟨6, 3⟩, ⟨6, 4⟩, ⟨5, 4⟩, ⟨5, 3⟩, ⟨4, 3⟩, ⟨4, 4⟩, ⟨3, 4⟩, ⟨3, 3⟩, ⟨2, 3⟩, ⟨2, 4⟩, ⟨1, 4⟩, ⟨0, 4⟩, ⟨0, 3⟩, ⟨1, 3⟩, ⟨1, 2⟩, ⟨0, 2⟩, ⟨0, 1⟩, ⟨0, 0⟩, ⟨1, 0⟩, ⟨1, 1⟩, ⟨2, 1⟩, ⟨2, 0⟩, ⟨3, 0⟩, ⟨3, 1⟩, ⟨4, 1⟩, ⟨4, 0⟩, ⟨5, 0⟩, ⟨5, 1⟩, ⟨6, 1⟩, ⟨6, 0⟩, ⟨7, 0⟩, ⟨7, 1⟩, ⟨8, 1⟩, ⟨8, 0⟩, ⟨9, 0⟩, ⟨9, 1⟩, ⟨9, 2⟩, ⟨8, 2⟩, ⟨7, 2⟩, ⟨6, 2⟩, ⟨5, 2⟩, ⟨4, 2⟩, ⟨3, 2⟩, ⟨2, 2⟩], Direction.DOWN, ⟨9, 4⟩, 450, 50, 16, false⟩


/-! ### Basic lemmas about the embedded operations -/

theorem point_equal_iff {a b : Point} : point_equal a b = true ↔ a = b := by
  cases a
  cases b
  simp [point_equal, Point.mk.injEq]

theorem point_equal_refl (a : Point) : point_equal a a = true :=
  point_equal_iff.mpr rfl

theorem self_hit_false_not_mem {s : GameState} (h : self_hit s = false) :
    ∀ p ∈ s.snake, new_head_of s ≠ p := by
  intro p hp heq
  have ht : s.snake.any (fun q => point_equal (new_head_of s) q) = true :=
    List.any_eq_true.mpr ⟨p, hp, point_equal_iff.mpr heq⟩
  rw [self_hit] at h
  rw [ht] at h
  exact Bool.true_eq_false.mp h

theorem wall_hit_false_in_grid {s : GameState} (h : wall_hit s = false) :
    in_grid s.width s.height (new_head_of s) := by
  rw [wall_hit] at h
  simp only [Bool.or_eq_false_iff, decide_eq_false_iff_not, not_lt, not_le] at h
  exact ⟨h.1.1.1, h.1.1.2, h.1.2, h.2⟩

theorem grow_state_fields (s : GameState) (r : Rng) :
    (grow_state s r).1.snake = new_head_of s :: s.snake ∧
    (grow_state s r).1.score = s.score + 10 ∧
    (grow_state s r).1.width = s.width ∧
    (grow_state s r).1.height = s.height ∧
    (grow_state s r).1.game_over = s.game_over ∧
    (grow_state s r).1.dir = s.dir := by
  unfold grow_state
  dsimp only
  split
  · exact ⟨rfl, rfl, rfl, rfl, rfl, rfl⟩
  · exact ⟨rfl, rfl, rfl, rfl, rfl, rfl⟩

theorem grow_state_speed {s : GameState} {r : Rng}
    (hc : ((new_head_of s :: s.snake).length % 3 == 0 && decide (MIN_DELAY_MS < s.delay_ms)) = true) :
    (grow_state s r).1.delay_ms = s.delay_ms - 10 ∧ (grow_state s r).1.level = s.level + 1 := by
  unfold grow_state
  dsimp only
  rw [if_pos hc]
  exact ⟨rfl, rfl⟩

theorem grow_state_no_speed {s : GameState} {r : Rng}
    (hc : ¬ (((new_head_of s :: s.snake).length % 3 == 0 && decide (MIN_DELAY_MS < s.delay_ms)) = true)) :
    (grow_state s r).1.delay_ms = s.delay_ms ∧ (grow_state s r).1.level = s.level := by
  unfold grow_state
  dsimp only
  rw [if_neg hc]
  exact ⟨rfl, rfl⟩

theorem step_eq_wall {s : GameState} {r : Rng} (hw : wall_hit s = true) :
    step_snake s r = (false, s, r) := by
  simp [step_snake, hw]

theorem step_eq_self {s : GameState} {r : Rng} (hw : wall_hit s = false)
    (hs : self_hit s = true) :
    step_snake s r = (false, s, r) := by
  simp [step_snake, hw, hs]

theorem step_eq_eat {s : GameState} {r : Rng} (hw : wall_hit s = false)
    (hs : self_hit s = false) (he : point_equal (new_head_of s) s.fruit = true) :
    step_snake s r =
      if MAX_SNAKE - 1 ≤ s.snake.length + 1 then (false, (grow_state s r).1, (grow_state s r).2)
      else (true, (grow_state s r).1, (grow_state s r).2) := by
  simp [step_snake, hw, hs, he]

theorem step_eq_move {s : GameState} {r : Rng} (hw : wall_hit s = false)
    (hs : self_hit s = false) (he : point_equal (new_head_of s) s.fruit = false) :
    step_snake s r = (true, move_state s, r) := by
  simp [step_snake, hw, hs, he]

theorem session_tick_wall {s : GameState} {r : Rng} (hw : wall_hit s = true) :
    session_tick s r = ({ s with game_over := true }, r) := by
  simp [session_tick, step_eq_wall hw]

theorem session_tick_self {s : GameState} {r : Rng} (hw : wall_hit s = false)
    (hs : self_hit s = true) :
    session_tick s r = ({ s with game_over := true }, r) := by
  simp [session_tick, step_eq_self hw hs]

theorem session_tick_move {s : GameState} {r : Rng} (hw : wall_hit s = false)
    (hs : self_hit s = false) (he : point_equal (new_head_of s) s.fruit = false) :
    session_tick s r = (move_state s, r) := by
  simp [session_tick, step_eq_move hw hs he]

theorem session_tick_eat_full {s : GameState} {r : Rng} (hw : wall_hit s = false)
    (hs : self_hit s = false) (he : point_equal (new_head_of s) s.fruit = true)
    (hf : MAX_SNAKE - 1 ≤ s.snake.length + 1) :
    session_tick s r = ({ (grow_state s r).1 with game_over := true }, (grow_state s r).2) := by
  simp [session_tick, step_eq_eat hw hs he, hf]

theorem session_tick_eat_live {s : GameState} {r : Rng} (hw : wall_hit s = false)
    (hs : self_hit s = false) (he : point_equal (new_head_of s) s.fruit = true)
    (hf : ¬ (MAX_SNAKE - 1 ≤ s.snake.length + 1)) :
    session_tick s r = ((grow_state s r).1, (grow_state s r).2) := by
  simp [session_tick, step_eq_eat hw hs he, hf]

theorem change_direction_fields (s : GameState) (d : Direction) :
    (change_direction s d).snake = s.snake ∧
    (change_direction s d).score = s.score ∧
    (change_direction s d).width = s.width ∧
    (change_direction s d).height = s.height ∧
    (change_direction s d).game_over = s.game_over ∧
    (change_direction s d).fruit = s.fruit ∧
    (change_direction s d).delay_ms = s.delay_ms ∧
    (change_direction s d).level = s.level := by
  unfold change_direction
  split
  · exact ⟨rfl, rfl, rfl, rfl, rfl, rfl, rfl, rfl⟩
  · exact ⟨rfl, rfl, rfl, rfl, rfl, rfl, rfl, rfl⟩

theorem run_cons_none (sr : GameState × Rng) (rest : List (Option Direction)) :
    run sr (none :: rest) =
      run (if sr.1.game_over then (sr.1, sr.2) else session_tick sr.1 sr.2) rest := rfl

theorem run_cons_some (sr : GameState × Rng) (d : Direction)
    (rest : List (Option Direction)) :
    run sr (some d :: rest) =
      run (if (change_direction sr.1 d).game_over then (change_direction sr.1 d, sr.2)
           else session_tick (change_direction sr.1 d) sr.2) rest := rfl

theorem run_reach {w h : Nat} :
    ∀ (script : List (Option Direction)) (sr : GameState × Rng),
      Reach w h sr → Reach w h (run sr script)
  | [], _, hr => hr
  | none :: rest, sr, hr => by
    rw [run_cons_none]
    by_cases hg : sr.1.game_over = true
    · rw [if_pos hg]
      exact run_reach rest _ hr
    · rw [if_neg hg]
      exact run_reach rest _ (Reach.step sr hr (by simpa using hg))
  | some d :: rest, sr, hr => by
    rw [run_cons_some]
    by_cases hg : (change_direction sr.1 d).game_over = true
    · rw [if_pos hg]
      exact run_reach rest _ (Reach.turn sr d hr)
    · rw [if_neg hg]
      exact run_reach rest _
        (Reach.step (change_direction sr.1 d, sr.2) (Reach.turn sr d hr) (by simpa using hg))


/-! ### Fruit placement lemmas -/

theorem headD_eq_getD (l : List Nat) (d : Nat) : l.headD d = l.getD 0 d := by
  cases l <;> rfl

theorem tail_headD_eq_getD (l : List Nat) (d : Nat) : l.tail.headD d = l.getD 1 d := by
  cases l with
  | nil => rfl
  | cons a t => cases t <;> rfl

theorem getD_tail_tail (l : List Nat) (m d : Nat) :
    (l.tail.tail).getD m d = l.getD (m + 2) d := by
  cases l with
  | nil => rfl
  | cons a t =>
    cases t with
    | nil => rfl
    | cons b t2 => rfl

theorem proposal_zero (w h : Nat) (r : Rng) :
    (⟨(((rand r).1 % w : Nat) : Int), (((rand (rand r).2).1 % h : Nat) : Int)⟩ : Point) =
      proposal w h r 0 := by
  unfold proposal nth_rand rand
  rw [headD_eq_getD, tail_headD_eq_getD]

theorem rand_two_rng (r : Rng) : (rand (rand r).2).2 = ⟨r.buf.tail.tail, r.dflt⟩ := rfl

theorem proposal_shift (w h : Nat) (r : Rng) (n : Nat) :
    proposal w h (⟨r.buf.tail.tail, r.dflt⟩ : Rng) n = proposal w h r (n + 1) := by
  unfold proposal nth_rand
  have e1 : 2 * n + 2 = 2 * (n + 1) := by ring
  have e2 : 2 * n + 1 + 2 = 2 * (n + 1) + 1 := by ring
  rw [getD_tail_tail, getD_tail_tail, e1, e2]

theorem place_fruit_go_eq (w h : Nat) (sn : List Point) (fuel : Nat) (r : Rng) :
    place_fruit_go w h sn fuel r =
      if sn.any (fun p => point_equal p (proposal w h r 0)) then
        match fuel with
        | 0 => (proposal w h r 0, ⟨r.buf.tail.tail, r.dflt⟩)
        | fuel + 1 => place_fruit_go w h sn fuel ⟨r.buf.tail.tail, r.dflt⟩
      else (proposal w h r 0, ⟨r.buf.tail.tail, r.dflt⟩) := by
  conv =>
    lhs
    rw [place_fruit_go.eq_def]
  dsimp only
  rw [proposal_zero, rand_two_rng]

theorem any_eq_false_not_mem {sn : List Point} {f : Point}
    (h : sn.any (fun p => point_equal p f) = false) : f ∉ sn := by
  intro hf
  have ht : sn.any (fun p => point_equal p f) = true :=
    List.any_eq_true.mpr ⟨f, hf, point_equal_refl f⟩
  rw [ht] at h
  exact Bool.true_eq_false.mp h

theorem any_eq_true_mem {sn : List Point} {f : Point}
    (h : sn.any (fun p => point_equal p f) = true) : f ∈ sn := by
  obtain ⟨p, hp, hpe⟩ := List.any_eq_true.mp h
  rw [← point_equal_iff.mp hpe]
  exact hp

theorem place_fruit_go_free (w h : Nat) (sn : List Point) :
    ∀ (fuel : Nat) (r : Rng), (∃ n, n ≤ fuel ∧ proposal w h r n ∉ sn) →
      (place_fruit_go w h sn fuel r).1 ∉ sn := by
  intro fuel
  induction fuel with
  | zero =>
    intro r hex
    obtain ⟨n, hn, hfree⟩ := hex
    interval_cases n
    rw [place_fruit_go_eq]
    cases hcoll : sn.any (fun p => point_equal p (proposal w h r 0)) with
    | false => simpa using any_eq_false_not_mem hcoll
    | true => exact absurd (any_eq_true_mem hcoll) hfree
  | succ fuel ih =>
    intro r hex
    rw [place_fruit_go_eq]
    cases hcoll : sn.any (fun p => point_equal p (proposal w h r 0)) with
    | false => simpa using any_eq_false_not_mem hcoll
    | true =>
      obtain ⟨n, hn, hfree⟩ := hex
      cases n with
      | zero => exact absurd (any_eq_true_mem hcoll) hfree
      | succ m =>
        simp only [if_pos]
        exact ih ⟨r.buf.tail.tail, r.dflt⟩ ⟨m, by omega, by rw [proposal_shift]; exact hfree⟩

theorem place_fruit_free (w h : Nat) (sn : List Point) (r : Rng)
    (hex : ∃ n, n ≤ 10000 ∧ proposal w h r n ∉ sn) :
    (place_fruit w h sn r).1 ∉ sn := by
  unfold place_fruit
  exact place_fruit_go_free w h sn 10000 r hex

theorem place_fruit_go_const (w h : Nat) (sn : List Point) (d : Nat)
    (hc : sn.any (fun p =>
      point_equal p ⟨((d % w : Nat) : Int), ((d % h : Nat) : Int)⟩) = true) :
    ∀ fuel, place_fruit_go w h sn fuel (⟨[], d⟩ : Rng) =
      (⟨((d % w : Nat) : Int), ((d % h : Nat) : Int)⟩, (⟨[], d⟩ : Rng)) := by
  intro fuel
  have hp : proposal w h (⟨[], d⟩ : Rng) 0 =
      (⟨((d % w : Nat) : Int), ((d % h : Nat) : Int)⟩ : Point) := rfl
  induction fuel with
  | zero =>
    rw [place_fruit_go_eq, hp, if_pos hc]
    rfl
  | succ fuel ih =>
    rw [place_fruit_go_eq, hp, if_pos hc]
    simpa using ih

theorem place_fruit_const (w h : Nat) (sn : List Point) (d : Nat)
    (hc : sn.any (fun p =>
      point_equal p ⟨((d % w : Nat) : Int), ((d % h : Nat) : Int)⟩) = true) :
    place_fruit w h sn (⟨[], d⟩ : Rng) =
      (⟨((d % w : Nat) : Int), ((d % h : Nat) : Int)⟩, (⟨[], d⟩ : Rng)) :=
  place_fruit_go_const w h sn d hc 10000

/-! ### Reachable-state invariants -/

theorem init_game_state (w h : Nat) (r : Rng) :
    (init_game w h r).1.width = w ∧ (init_game w h r).1.height = h ∧
    (init_game w h r).1.snake =
      (List.range STARTING_LENGTH).map
        (fun (i : Nat) => Point.mk (((w / 2 : Nat) : Int) - (i : Int)) ((h / 2 : Nat) : Int)) ∧
    (init_game w h r).1.score = 0 ∧ (init_game w h r).1.delay_ms = INITIAL_DELAY_MS ∧
    (init_game w h r).1.level = 1 ∧ (init_game w h r).1.game_over = false ∧
    (init_game w h r).1.dir = Direction.RIGHT :=
  ⟨rfl, rfl, rfl, rfl, rfl, rfl, rfl, rfl⟩

theorem init_game_snake_length (w h : Nat) (r : Rng) :
    (init_game w h r).1.snake.length = 4 := by
  rw [(init_game_state w h r).2.2.1]
  rfl

theorem init_game_fruit (w h : Nat) (r : Rng) :
    (init_game w h r).1.fruit =
      (place_fruit w h ((List.range STARTING_LENGTH).map
        (fun (i : Nat) => Point.mk (((w / 2 : Nat) : Int) - (i : Int)) ((h / 2 : Nat) : Int)))
        r).1 := rfl

theorem reach_basic {w h : Nat} {sr : GameState × Rng} (hr : Reach w h sr) :
    sr.1.width = w ∧ sr.1.height = h ∧ 4 ≤ sr.1.snake.length ∧
    sr.1.snake.length ≤ MAX_SNAKE - 1 ∧
    (sr.1.game_over = false → sr.1.snake.length ≤ MAX_SNAKE - 2) ∧
    sr.1.score = 10 * (sr.1.snake.length - 4) := by
  have hms : MAX_SNAKE = 600 := rfl
  induction hr with
  | init r =>
    obtain ⟨e1, e2, _, e4, _, _, _, _⟩ := init_game_state w h r
    have hlen := init_game_snake_length w h r
    exact ⟨e1, e2, by omega, by omega, fun _ => by omega, by omega⟩
  | turn sr d hprev ih =>
    obtain ⟨h1, h2, h3, h4, h5, h6⟩ := ih
    obtain ⟨cs, csc, cw, chh, cg, _, _, _⟩ := change_direction_fields sr.1 d
    refine ⟨cw.trans h1, chh.trans h2, cs ▸ h3, cs ▸ h4, ?_, by rw [csc, cs]; exact h6⟩
    intro hgo
    rw [cg] at hgo
    exact cs ▸ h5 hgo
  | step sr hrr hlive ih =>
    obtain ⟨h1, h2, h3, h4, h5, h6⟩ := ih
    have hlen598 := h5 hlive
    by_cases hw : wall_hit sr.1 = true
    · rw [session_tick_wall hw]
      exact ⟨h1, h2, h3, h4, fun hgo => by simp at hgo, h6⟩
    · have hw1 : wall_hit sr.1 = false := by simpa using hw
      by_cases hs : self_hit sr.1 = true
      · rw [session_tick_self hw1 hs]
        exact ⟨h1, h2, h3, h4, fun hgo => by simp at hgo, h6⟩
      · have hs1 : self_hit sr.1 = false := by simpa using hs
        by_cases he : point_equal (new_head_of sr.1) sr.1.fruit = true
        · obtain ⟨gs, gsc, gw, gh, ggo, _⟩ := grow_state_fields sr.1 sr.2
          have hglen : (grow_state sr.1 sr.2).1.snake.length = sr.1.snake.length + 1 := by
            rw [gs]
            simp
          by_cases hf : MAX_SNAKE - 1 ≤ sr.1.snake.length + 1
          · rw [session_tick_eat_full hw1 hs1 he hf]
            refine ⟨gw.trans h1, gh.trans h2, ?_, ?_, fun hgo => by simp at hgo, ?_⟩
            · show 4 ≤ (grow_state sr.1 sr.2).1.snake.length
              omega
            · show (grow_state sr.1 sr.2).1.snake.length ≤ MAX_SNAKE - 1
              omega
            · show (grow_state sr.1 sr.2).1.score =
                10 * ((grow_state sr.1 sr.2).1.snake.length - 4)
              rw [gsc, hglen]
              omega
          · rw [session_tick_eat_live hw1 hs1 he hf]
            refine ⟨gw.trans h1, gh.trans h2, ?_, ?_, ?_, ?_⟩
            · show 4 ≤ (grow_state sr.1 sr.2).1.snake.length
              omega
            · show (grow_state sr.1 sr.2).1.snake.length ≤ MAX_SNAKE - 1
              omega
            · intro _
              show (grow_state sr.1 sr.2).1.snake.length ≤ MAX_SNAKE - 2
              omega
            · show (grow_state sr.1 sr.2).1.score =
                10 * ((grow_state sr.1 sr.2).1.snake.length - 4)
              rw [gsc, hglen]
              omega
        · have he1 : point_equal (new_head_of sr.1) sr.1.fruit = false := by simpa using he
          rw [session_tick_move hw1 hs1 he1]
          have hmlen : (move_state sr.1).snake.length = sr.1.snake.length := by
            show (new_head_of sr.1 :: sr.1.snake.dropLast).length = sr.1.snake.length
            rw [List.length_cons, List.length_dropLast]
            omega
          refine ⟨h1, h2, ?_, ?_, fun _ => ?_, ?_⟩
          · show 4 ≤ (move_state sr.1).snake.length
            omega
          · show (move_state sr.1).snake.length ≤ MAX_SNAKE - 1
            omega
          · show (move_state sr.1).snake.length ≤ MAX_SNAKE - 2
            omega
          · show (move_state sr.1).score = 10 * ((move_state sr.1).snake.length - 4)
            rw [hmlen]
            exact h6

theorem reach_geom {w h : Nat} {sr : GameState × Rng} (hw10 : 10 ≤ w) (hh5 : 5 ≤ h)
    (hr : Reach w h sr) : all_in_grid w h sr.1.snake ∧ sr.1.snake.Nodup := by
  induction hr with
  | init r =>
    obtain ⟨_, _, e3, _, _, _, _, _⟩ := init_game_state w h r
    constructor
    · intro p hp
      rw [e3] at hp
      simp only [List.mem_map, List.mem_range, STARTING_LENGTH] at hp
      obtain ⟨i, hi, rfl⟩ := hp
      have hi4 : i < 4 := hi
      have hd1 : 5 ≤ w / 2 := by omega
      have hd2 : w / 2 < w := by omega
      have hd3 : 2 ≤ h / 2 := by omega
      have hd4 : h / 2 < h := by omega
      refine ⟨?_, ?_, ?_, ?_⟩
      · show (0 : Int) ≤ ((w / 2 : Nat) : Int) - i
        push_cast
        omega
      · show ((w / 2 : Nat) : Int) - i < (w : Int)
        push_cast
        omega
      · show (0 : Int) ≤ ((h / 2 : Nat) : Int)
        push_cast
        omega
      · show ((h / 2 : Nat) : Int) < (h : Int)
        push_cast
        omega
    · rw [e3]
      refine List.Nodup.map_on ?_ (List.nodup_range _)
      intro i hi j hj heq
      have hxe := congrArg Point.x heq
      dsimp only at hxe
      omega
  | turn sr d hprev ih =>
    obtain ⟨cs, _, _, _, _, _, _, _⟩ := change_direction_fields sr.1 d
    exact ⟨cs ▸ ih.1, cs ▸ ih.2⟩
  | step sr hrr hlive ih =>
    obtain ⟨hb1, hb2, _, _, _, _⟩ := reach_basic hrr
    obtain ⟨hgrid, hnd⟩ := ih
    by_cases hw : wall_hit sr.1 = true
    · rw [session_tick_wall hw]
      exact ⟨hgrid, hnd⟩
    · have hw1 : wall_hit sr.1 = false := by simpa using hw
      have hnh : in_grid w h (new_head_of sr.1) := by
        have := wall_hit_false_in_grid hw1
        rwa [hb1, hb2] at this
      by_cases hs : self_hit sr.1 = true
      · rw [session_tick_self hw1 hs]
        exact ⟨hgrid, hnd⟩
      · have hs1 : self_hit sr.1 = false := by simpa using hs
        have hnmem : new_head_of sr.1 ∉ sr.1.snake :=
          fun hmem => self_hit_false_not_mem hs1 _ hmem rfl
        by_cases he : point_equal (new_head_of sr.1) sr.1.fruit = true
        · obtain ⟨gs, _, _, _, _, _⟩ := grow_state_fields sr.1 sr.2
          have hfacts : all_in_grid w h (grow_state sr.1 sr.2).1.snake ∧
              (grow_state sr.1 sr.2).1.snake.Nodup := by
            rw [gs]
            constructor
            · intro p hp
              rcases List.mem_cons.mp hp with hph | hpt
              · exact hph ▸ hnh
              · exact hgrid p hpt
            · exact List.nodup_cons.mpr ⟨hnmem, hnd⟩
          by_cases hf : MAX_SNAKE - 1 ≤ sr.1.snake.length + 1
          · rw [session_tick_eat_full hw1 hs1 he hf]
            exact hfacts
          · rw [session_tick_eat_live hw1 hs1 he hf]
            exact hfacts
        · have he1 : point_equal (new_head_of sr.1) sr.1.fruit = false := by simpa using he
          rw [session_tick_move hw1 hs1 he1]
          constructor
          · intro p hp
            rcases List.mem_cons.mp hp with hph | hpt
            · exact hph ▸ hnh
            · exact hgrid p ((List.dropLast_sublist sr.1.snake).subset hpt)
          · refine List.nodup_cons.mpr ⟨?_, (List.dropLast_sublist sr.1.snake).nodup hnd⟩
            intro hmem
            exact hnmem ((List.dropLast_sublist sr.1.snake).subset hmem)

/-! ### Pigeonhole: a duplicate-free in-grid snake fits in the grid -/

theorem nodup_in_grid_length_le {l : List Point} {w h : Nat}
    (hn : l.Nodup) (hb : all_in_grid w h l) : l.length ≤ w * h := by
  classical
  have hinj : Function.Injective (fun p : Point => (p.x, p.y)) := by
    intro a b hab
    cases a
    cases b
    simpa [Prod.ext_iff] using hab
  have hn2 : (l.map (fun p : Point => (p.x, p.y))).Nodup := hn.map hinj
  have hsub : (l.map (fun p : Point => (p.x, p.y))).toFinset ⊆
      Finset.Ico (0 : Int) (w : Int) ×ˢ Finset.Ico (0 : Int) (h : Int) := by
    intro q hq
    rw [List.mem_toFinset, List.mem_map] at hq
    obtain ⟨p, hp, rfl⟩ := hq
    obtain ⟨hb1, hb2, hb3, hb4⟩ := hb p hp
    simp only [Finset.mem_product, Finset.mem_Ico]
    exact ⟨⟨hb1, hb2⟩, hb3, hb4⟩
  have hcard := Finset.card_le_card hsub
  rw [List.toFinset_card_of_nodup hn2] at hcard
  rw [List.length_map] at hcard
  simpa [Finset.card_product, Int.card_Ico] using hcard

/-! ### Strictly ascending point lists have no duplicates -/

theorem ascending_chain :
    ∀ l : List Point, ascending l = true →
      List.Chain' (fun p q => cell_index p < cell_index q) l
  | [], _ => List.chain'_nil
  | [p], _ => List.chain'_singleton p
  | p :: q :: t, hl => by
    have hspl : (decide (cell_index p < cell_index q) && ascending (q :: t)) = true := hl
    rw [Bool.and_eq_true, decide_eq_true_eq] at hspl
    exact List.chain'_cons.mpr ⟨hspl.1, ascending_chain (q :: t) hspl.2⟩

theorem ascending_imp_nodup (l : List Point) (hl : ascending l = true) : l.Nodup := by
  haveI : IsTrans Point (fun p q => cell_index p < cell_index q) :=
    ⟨fun _ _ _ hab hbc => lt_trans hab hbc⟩
  have hp : l.Pairwise (fun p q => cell_index p < cell_index q) :=
    List.chain'_iff_pairwise.mp (ascending_chain l hl)
  exact hp.imp (fun hlt heq => absurd (heq ▸ hlt) (lt_irrefl _))

/-! ### The scripted 10 by 5 session, tick by tick -/

theorem t5_init : init_game 10 5 (⟨T5BUF, 9⟩ : Rng) = (T5S0, T5R0) := rfl

theorem t5_reach0 : Reach 10 5 (T5S0, T5R0) := t5_init ▸ Reach.init ⟨T5BUF, 9⟩

theorem t5_step1 : run (T5S0, T5R0) [some Direction.RIGHT] = (T5S1, T5R1) := rfl
theorem t5_reach1 : Reach 10 5 (T5S1, T5R1) := t5_step1 ▸ run_reach _ _ t5_reach0
theorem t5_step2 : run (T5S1, T5R1) [some Direction.RIGHT] = (T5S2, T5R2) := rfl
theorem t5_reach2 : Reach 10 5 (T5S2, T5R2) := t5_step2 ▸ run_reach _ _ t5_reach1
theorem t5_step3 : run (T5S2, T5R2) [some Direction.RIGHT] = (T5S3, T5R3) := rfl
theorem t5_reach3 : Reach 10 5 (T5S3, T5R3) := t5_step3 ▸ run_reach _ _ t5_reach2
theorem t5_step4 : run (T5S3, T5R3) [some Direction.RIGHT] = (T5S4, T5R4) := rfl
theorem t5_reach4 : Reach 10 5 (T5S4, T5R4) := t5_step4 ▸ run_reach _ _ t5_reach3
theorem t5_step5 : run (T5S4, T5R4) [some Direction.UP] = (T5S5, T5R5) := rfl
theorem t5_reach5 : Reach 10 5 (T5S5, T5R5) := t5_step5 ▸ run_reach _ _ t5_reach4
theorem t5_step6 : run (T5S5, T5R5) [some Direction.UP] = (T5S6, T5R6) := rfl
theorem t5_reach6 : Reach 10 5 (T5S6, T5R6) := t5_step6 ▸ run_reach _ _ t5_reach5
theorem t5_step7 : run (T5S6, T5R6) [some Direction.LEFT] = (T5S7, T5R7) := rfl
theorem t5_reach7 : Reach 10 5 (T5S7, T5R7) := t5_step7 ▸ run_reach _ _ t5_reach6
theorem t5_step8 : run (T5S7, T5R7) [some Direction.DOWN] = (T5S8, T5R8) := rfl
theorem t5_reach8 : Reach 10 5 (T5S8, T5R8) := t5_step8 ▸ run_reach _ _ t5_reach7
theorem t5_step9 : run (T5S8, T5R8) [some Direction.LEFT] = (T5S9, T5R9) := rfl
theorem t5_reach9 : Reach 10 5 (T5S9, T5R9) := t5_step9 ▸ run_reach _ _ t5_reach8
theorem t5_step10 : run (T5S9, T5R9) [some Direction.UP] = (T5S10, T5R10) := rfl
theorem t5_reach10 : Reach 10 5 (T5S10, T5R10) := t5_step10 ▸ run_reach _ _ t5_reach9
theorem t5_step11 : run (T5S10, T5R10) [some Direction.LEFT] = (T5S11, T5R11) := rfl
theorem t5_reach11 : Reach 10 5 (T5S11, T5R11) := t5_step11 ▸ run_reach _ _ t5_reach10
theorem t5_step12 : run (T5S11, T5R11) [some Direction.DOWN] = (T5S12, T5R12) := rfl
theorem t5_reach12 : Reach 10 5 (T5S12, T5R12) := t5_step12 ▸ run_reach _ _ t5_reach11
theorem t5_step13 : run (T5S12, T5R12) [some Direction.LEFT] = (T5S13, T5R13) := rfl
theorem t5_reach13 : Reach 10 5 (T5S13, T5R13) := t5_step13 ▸ run_reach _ _ t5_reach12
theorem t5_step14 : run (T5S13, T5R13) [some Direction.UP] = (T5S14, T5R14) := rfl
theorem t5_reach14 : Reach 10 5 (T5S14, T5R14) := t5_step14 ▸ run_reach _ _ t5_reach13
theorem t5_step15 : run (T5S14, T5R14) [some Direction.LEFT] = (T5S15, T5R15) := rfl
theorem t5_reach15 : Reach 10 5 (T5S15, T5R15) := t5_step15 ▸ run_reach _ _ t5_reach14
theorem t5_step16 : run (T5S15, T5R15) [some Direction.DOWN] = (T5S16, T5R16) := rfl
theorem t5_reach16 : Reach 10 5 (T5S16, T5R16) := t5_step16 ▸ run_reach _ _ t5_reach15
theorem t5_step17 : run (T5S16, T5R16) [some Direction.LEFT] = (T5S17, T5R17) := rfl
theorem t5_reach17 : Reach 10 5 (T5S17, T5R17) := t5_step17 ▸ run_reach _ _ t5_reach16
theorem t5_step18 : run (T5S17, T5R17) [some Direction.UP] = (T5S18, T5R18) := rfl
theorem t5_reach18 : Reach 10 5 (T5S18, T5R18) := t5_step18 ▸ run_reach _ _ t5_reach17
theorem t5_step19 : run (T5S18, T5R18) [some Direction.LEFT] = (T5S19, T5R19) := rfl
theorem t5_reach19 : Reach 10 5 (T5S19, T5R19) := t5_step19 ▸ run_reach _ _ t5_reach18
theorem t5_step20 : run (T5S19, T5R19) [some Direction.DOWN] = (T5S20, T5R20) := rfl
theorem t5_reach20 : Reach 10 5 (T5S20, T5R20) := t5_step20 ▸ run_reach _ _ t5_reach19
theorem t5_step21 : run (T5S20, T5R20) [some Direction.LEFT] = (T5S21, T5R21) := rfl
theorem t5_reach21 : Reach 10 5 (T5S21, T5R21) := t5_step21 ▸ run_reach _ _ t5_reach20
theorem t5_step22 : run (T5S21, T5R21) [some Direction.UP] = (T5S22, T5R22) := rfl
theorem t5_reach22 : Reach 10 5 (T5S22, T5R22) := t5_step22 ▸ run_reach _ _ t5_reach21
theorem t5_step23 : run (T5S22, T5R22) [some Direction.LEFT] = (T5S23, T5R23) := rfl
theorem t5_reach23 : Reach 10 5 (T5S23, T5R23) := t5_step23 ▸ run_reach _ _ t5_reach22
theorem t5_step24 : run (T5S23, T5R23) [some Direction.DOWN] = (T5S24, T5R24) := rfl
theorem t5_reach24 : Reach 10 5 (T5S24, T5R24) := t5_step24 ▸ run_reach _ _ t5_reach23
theorem t5_step25 : run (T5S24, T5R24) [some Direction.DOWN] = (T5S25, T5R25) := rfl
theorem t5_reach25 : Reach 10 5 (T5S25, T5R25) := t5_step25 ▸ run_reach _ _ t5_reach24
theorem t5_step26 : run (T5S25, T5R25) [some Direction.RIGHT] = (T5S26, T5R26) := rfl
theorem t5_reach26 : Reach 10 5 (T5S26, T5R26) := t5_step26 ▸ run_reach _ _ t5_reach25
theorem t5_step27 : run (T5S26, T5R26) [some Direction.DOWN] = (T5S27, T5R27) := rfl
theorem t5_reach27 : Reach 10 5 (T5S27, T5R27) := t5_step27 ▸ run_reach _ _ t5_reach26
theorem t5_step28 : run (T5S27, T5R27) [some Direction.LEFT] = (T5S28, T5R28) := rfl
theorem t5_reach28 : Reach 10 5 (T5S28, T5R28) := t5_step28 ▸ run_reach _ _ t5_reach27
theorem t5_step29 : run (T5S28, T5R28) [some Direction.DOWN] = (T5S29, T5R29) := rfl
theorem t5_reach29 : Reach 10 5 (T5S29, T5R29) := t5_step29 ▸ run_reach _ _ t5_reach28
theorem t5_step30 : run (T5S29, T5R29) [some Direction.RIGHT] = (T5S30, T5R30) := rfl
theorem t5_reach30 : Reach 10 5 (T5S30, T5R30) := t5_step30 ▸ run_reach _ _ t5_reach29
theorem t5_step31 : run (T5S30, T5R30) [some Direction.RIGHT] = (T5S31, T5R31) := rfl
theorem t5_reach31 : Reach 10 5 (T5S31, T5R31) := t5_step31 ▸ run_reach _ _ t5_reach30
theorem t5_step32 : run (T5S31, T5R31) [some Direction.UP] = (T5S32, T5R32) := rfl
theorem t5_reach32 : Reach 10 5 (T5S32, T5R32) := t5_step32 ▸ run_reach _ _ t5_reach31
theorem t5_step33 : run (T5S32, T5R32) [some Direction.RIGHT] = (T5S33, T5R33) := rfl
theorem t5_reach33 : Reach 10 5 (T5S33, T5R33) := t5_step33 ▸ run_reach _ _ t5_reach32
theorem t5_step34 : run (T5S33, T5R33) [some Direction.DOWN] = (T5S34, T5R34) := rfl
theorem t5_reach34 : Reach 10 5 (T5S34, T5R34) := t5_step34 ▸ run_reach _ _ t5_reach33
theorem t5_step35 : run (T5S34, T5R34) [some Direction.RIGHT] = (T5S35, T5R35) := rfl
theorem t5_reach35 : Reach 10 5 (T5S35, T5R35) := t5_step35 ▸ run_reach _ _ t5_reach34
theorem t5_step36 : run (T5S35, T5R35) [some Direction.UP] = (T5S36, T5R36) := rfl
theorem t5_reach36 : Reach 10 5 (T5S36, T5R36) := t5_step36 ▸ run_reach _ _ t5_reach35
theorem t5_step37 : run (T5S36, T5R36) [some Direction.RIGHT] = (T5S37, T5R37) := rfl
theorem t5_reach37 : Reach 10 5 (T5S37, T5R37) := t5_step37 ▸ run_reach _ _ t5_reach36
theorem t5_step38 : run (T5S37, T5R37) [some Direction.DOWN] = (T5S38, T5R38) := rfl
theorem t5_reach38 : Reach 10 5 (T5S38, T5R38) := t5_step38 ▸ run_reach _ _ t5_reach37
theorem t5_step39 : run (T5S38, T5R38) [some Direction.RIGHT] = (T5S39, T5R39) := rfl
theorem t5_reach39 : Reach 10 5 (T5S39, T5R39) := t5_step39 ▸ run_reach _ _ t5_reach38
theorem t5_step40 : run (T5S39, T5R39) [some Direction.UP] = (T5S40, T5R40) := rfl
theorem t5_reach40 : Reach 10 5 (T5S40, T5R40) := t5_step40 ▸ run_reach _ _ t5_reach39
theorem t5_step41 : run (T5S40, T5R40) [some Direction.RIGHT] = (T5S41, T5R41) := rfl
theorem t5_reach41 : Reach 10 5 (T5S41, T5R41) := t5_step41 ▸ run_reach _ _ t5_reach40
theorem t5_step42 : run (T5S41, T5R41) [some Direction.DOWN] = (T5S42, T5R42) := rfl
theorem t5_reach42 : Reach 10 5 (T5S42, T5R42) := t5_step42 ▸ run_reach _ _ t5_reach41
theorem t5_step43 : run (T5S42, T5R42) [some Direction.RIGHT] = (T5S43, T5R43) := rfl
theorem t5_reach43 : Reach 10 5 (T5S43, T5R43) := t5_step43 ▸ run_reach _ _ t5_reach42
theorem t5_step44 : run (T5S43, T5R43) [some Direction.UP] = (T5S44, T5R44) := rfl
theorem t5_reach44 : Reach 10 5 (T5S44, T5R44) := t5_step44 ▸ run_reach _ _ t5_reach43
theorem t5_step45 : run (T5S44, T5R44) [some Direction.RIGHT] = (T5S45, T5R45) := rfl
theorem t5_reach45 : Reach 10 5 (T5S45, T5R45) := t5_step45 ▸ run_reach _ _ t5_reach44

theorem t5_turn46 : change_direction T5S45 Direction.DOWN = T5S45D := rfl

theorem t5_pf46 : place_fruit 10 5 (Point.mk 9 4 :: T5S45D.snake) T5R45 =
    (Point.mk 9 4, T5R45) := by
  show place_fruit 10 5 (Point.mk 9 4 :: T5S45D.snake) (⟨[], 9⟩ : Rng) =
    (Point.mk 9 4, (⟨[], 9⟩ : Rng))
  have hgive := place_fruit_const 10 5 (Point.mk 9 4 :: T5S45D.snake) 9 (by decide)
  rw [hgive]
  rfl

theorem t5_step46 : run (T5S45, T5R45) [some Direction.DOWN] = (T5S46, T5R46) := by
  rw [run_cons_some]
  show run (if T5S45D.game_over = true then (T5S45D, T5R45)
            else session_tick T5S45D T5R45) [] = (T5S46, T5R46)
  rw [if_neg (by decide : ¬ (T5S45D.game_over = true))]
  show session_tick T5S45D T5R45 = (T5S46, T5R46)
  rw [session_tick_eat_live (by decide) (by decide) (by decide) (by decide)]
  have hW : T5S45D.width = 10 := rfl
  have hH : T5S45D.height = 5 := rfl
  have hnh : new_head_of T5S45D = Point.mk 9 4 := rfl
  unfold grow_state
  dsimp only
  rw [hW, hH, hnh, t5_pf46]
  rfl

theorem t5_reach46 : Reach 10 5 (T5S46, T5R46) := t5_step46 ▸ run_reach _ _ t5_reach45

/-! ### Helper equations used by the per-tick claim theorems -/

theorem step_eat_state {s : GameState} {r : Rng} (hw : wall_hit s = false)
    (hs : self_hit s = false) (he : point_equal (new_head_of s) s.fruit = true) :
    (step_snake s r).2.1 = (grow_state s r).1 ∧ (step_snake s r).2.2 = (grow_state s r).2 := by
  rw [step_eq_eat hw hs he]
  split
  · exact ⟨rfl, rfl⟩
  · exact ⟨rfl, rfl⟩

theorem speed_cond_iff (s : GameState) :
    (((new_head_of s :: s.snake).length % 3 == 0) && decide (MIN_DELAY_MS < s.delay_ms)) = true ↔
      ((s.snake.length + 1) % 3 = 0 ∧ MIN_DELAY_MS < s.delay_ms) := by
  rw [Bool.and_eq_true, decide_eq_true_eq, List.length_cons]
  simp [beq_iff_eq]

theorem getLastD_eq_getLast {l : List Point} (hne : l ≠ []) (d : Point) :
    l.getLastD d = l.getLast hne := by
  rw [List.getLastD_eq_getLast?, List.getLast?_eq_getLast l hne]
  rfl

/-! ### Claim theorems -/

/-- Claim C1 (counterexample): on a reachable 10 by 5 session, eating the
2nd fruit already lowers the delay from 200 to 190 and raises the level to
2, and eating the 3rd fruit changes neither — contradicting the claim that
the speed-up happens exactly on the 3rd, 6th, 9th, … fruit. -/
theorem c1_counterexample :
    Reach 10 5 (T5S2, T5R2) ∧ Reach 10 5 (T5S3, T5R3) ∧
    T5S1.score = 10 ∧ T5S1.delay_ms = 200 ∧ T5S1.level = 1 ∧
    T5S2.score = 20 ∧ T5S2.delay_ms = 190 ∧ T5S2.level = 2 ∧
    T5S3.score = 30 ∧ T5S3.delay_ms = 190 ∧ T5S3.level = 2 :=
  ⟨t5_reach2, t5_reach3, rfl, rfl, rfl, rfl, rfl, rfl, rfl, rfl, rfl⟩

/-- Claim C1 (amended): a tick that eats a fruit decreases the delay by 10
and increments the level exactly when the new length (old length + 1) is
divisible by 3 — i.e. on the 2nd, 5th, 8th, … fruit, since the length is
4 plus the number of fruits eaten — and the delay still exceeds the floor
of 50; any other eat leaves delay and level unchanged. -/
theorem c1_speed_rule (s : GameState) (r : Rng) (hw : wall_hit s = false)
    (hs : self_hit s = false) (he : point_equal (new_head_of s) s.fruit = true) :
    (((s.snake.length + 1) % 3 = 0 ∧ MIN_DELAY_MS < s.delay_ms) →
      (step_snake s r).2.1.delay_ms = s.delay_ms - 10 ∧
      (step_snake s r).2.1.level = s.level + 1) ∧
    (¬ ((s.snake.length + 1) % 3 = 0 ∧ MIN_DELAY_MS < s.delay_ms) →
      (step_snake s r).2.1.delay_ms = s.delay_ms ∧
      (step_snake s r).2.1.level = s.level) := by
  obtain ⟨hT, _⟩ := @step_eat_state s r hw hs he
  rw [hT]
  constructor
  · intro hc
    exact grow_state_speed ((speed_cond_iff s).mpr hc)
  · intro hc
    exact grow_state_no_speed (fun hb => hc ((speed_cond_iff s).mp hb))

/-- Claim C1 (witness): a concrete eat of the 2nd fruit (length 5 to 6)
at delay 200 triggers the speed-up. -/
theorem c1_witness :
    (step_snake (⟨10, 5, [⟨5, 2⟩, ⟨4, 2⟩, ⟨3, 2⟩, ⟨2, 2⟩, ⟨1, 2⟩], Direction.RIGHT, ⟨6, 2⟩,
        10, 200, 1, false⟩ : GameState) (⟨[0, 0], 0⟩ : Rng)).2.1.delay_ms = 200 - 10 ∧
    (step_snake (⟨10, 5, [⟨5, 2⟩, ⟨4, 2⟩, ⟨3, 2⟩, ⟨2, 2⟩, ⟨1, 2⟩], Direction.RIGHT, ⟨6, 2⟩,
        10, 200, 1, false⟩ : GameState) (⟨[0, 0], 0⟩ : Rng)).2.1.level = 1 + 1 :=
  (c1_speed_rule _ _ (by decide) (by decide) (by decide)).1 (by decide)

/-- Claim C2 (code bug evaluation): on a reachable 10 by 5 session the
45th tick eats a fruit and brings the length to 49 = 10*5 - 1, the
session's grid capacity minus one, yet the game does not end: the code's
board-full stop compares against the compile-time constant
MAX_SNAKE - 1 = 599 instead of the session's width*height - 1. -/
theorem c2_boardfull_missed :
    Reach 10 5 (T5S45, T5R45) ∧ T5S44.snake.length = 48 ∧
    T5S45.snake.length = 49 ∧ T5S45.score = T5S44.score + 10 ∧
    T5S45.snake.length = 10 * 5 - 1 ∧ T5S45.game_over = false :=
  ⟨t5_reach45, by decide, by decide, by decide, by decide, rfl⟩

/-- Claim C3: for every accepted configuration and every reachable,
still-running state, every snake-buffer index the tick can touch
(indices 0 through snake_len, covering the body shift's reads and writes,
the collision scan and the post-growth fruit scan) is strictly below the
buffer capacity MAX_SNAKE = 600. -/
theorem c3_buffer_safe (w h : Nat) (sr : GameState × Rng) (hacc : accepted w h)
    (hr : Reach w h sr) (hlive : sr.1.game_over = false) :
    indices_below (tick_buffer_indices sr.1) MAX_SNAKE := by
  intro i hi
  obtain ⟨_, _, _, _, h5, _⟩ := reach_basic hr
  have hlen := h5 hlive
  have hms : MAX_SNAKE = 600 := rfl
  rw [tick_buffer_indices, List.mem_range] at hi
  omega

/-- Claim C3 (witness): the default 30 by 20 configuration is accepted and
the initial state's tick touches only indices below 600. -/
theorem c3_witness :
    accepted 30 20 ∧ (init_game 30 20 (⟨[0, 0], 0⟩ : Rng)).1.game_over = false ∧
    indices_below (tick_buffer_indices (init_game 30 20 (⟨[0, 0], 0⟩ : Rng)).1) MAX_SNAKE :=
  ⟨by decide, rfl,
    c3_buffer_safe 30 20 _ (by decide) (Reach.init ⟨[0, 0], 0⟩) rfl⟩

/-- Claim C4 (counterexample): at initialization of a 10 by 5 session,
a sample stream that keeps proposing the occupied cell (2,2) exhausts the
10000-retry safety valve and the fruit is placed on the snake,
contradicting the claim that the fruit never coincides with a segment for
every random-number stream. -/
theorem c4_counterexample :
    Reach 10 5 (init_game 10 5 (⟨[], 2⟩ : Rng)) ∧
    (init_game 10 5 (⟨[], 2⟩ : Rng)).1.fruit ∈ (init_game 10 5 (⟨[], 2⟩ : Rng)).1.snake := by
  refine ⟨Reach.init ⟨[], 2⟩, ?_⟩
  have hsn : (init_game 10 5 (⟨[], 2⟩ : Rng)).1.snake =
      [⟨5, 2⟩, ⟨4, 2⟩, ⟨3, 2⟩, ⟨2, 2⟩] := by
    rw [(init_game_state 10 5 (⟨[], 2⟩ : Rng)).2.2.1]
    decide
  have hl : ((List.range STARTING_LENGTH).map
      (fun (i : Nat) => Point.mk ((((10 : Nat) / 2 : Nat) : Int) - (i : Int))
        (((5 : Nat) / 2 : Nat) : Int))) =
      [(⟨5, 2⟩ : Point), ⟨4, 2⟩, ⟨3, 2⟩, ⟨2, 2⟩] := by decide
  have hfr2 : (init_game 10 5 (⟨[], 2⟩ : Rng)).1.fruit = (⟨2, 2⟩ : Point) := by
    rw [init_game_fruit, hl,
      place_fruit_const 10 5 [(⟨5, 2⟩ : Point), ⟨4, 2⟩, ⟨3, 2⟩, ⟨2, 2⟩] 2 (by decide)]
    decide
  rw [hfr2, hsn]
  decide

/-- Claim C4 (amended): after any fruit placement whose retry loop can see
at least one free sample within its 10001-sample window (the first sample
plus 10000 retries), the placed fruit does not lie on the snake; only when
every sample in the window collides does the valve give up and place the
fruit at the last (occupied) sample. -/
theorem c4_placement_free (w h : Nat) (sn : List Point) (r : Rng)
    (hex : ∃ n, n ≤ 10000 ∧ proposal w h r n ∉ sn) :
    (place_fruit w h sn r).1 ∉ sn :=
  place_fruit_free w h sn r hex

/-- Claim C4 (witness): a concrete placement whose first sample (0,0) is
free yields a fruit off the snake. -/
theorem c4_witness :
    (place_fruit 10 5 [⟨5, 2⟩] (⟨[], 0⟩ : Rng)).1 ∉ ([⟨5, 2⟩] : List Point) :=
  c4_placement_free 10 5 [⟨5, 2⟩] ⟨[], 0⟩ ⟨0, by decide, by decide⟩

/-- Claim C5 (counterexample): a reachable 10 by 5 state has snake length
50 = width*height, exceeding the claimed bound width*height - 1: the board
can be filled completely because the board-full stop compares against 599,
not the session capacity. -/
theorem c5_counterexample :
    Reach 10 5 (T5S46, T5R46) ∧ T5S46.snake.length = 50 ∧
    ¬ (T5S46.snake.length ≤ 10 * 5 - 1) :=
  ⟨t5_reach46, by decide, by decide⟩

/-- Claim C5 (amended): in every reachable state of a session with
width ≥ 10 and height ≥ 5, the snake segments are pairwise distinct, lie
inside the grid, and the length satisfies 4 ≤ length ≤ width*height. -/
theorem c5_invariants (w h : Nat) (sr : GameState × Rng) (hw10 : 10 ≤ w) (hh5 : 5 ≤ h)
    (hr : Reach w h sr) :
    all_in_grid w h sr.1.snake ∧ sr.1.snake.Nodup ∧
    4 ≤ sr.1.snake.length ∧ sr.1.snake.length ≤ w * h := by
  obtain ⟨hg, hn⟩ := reach_geom hw10 hh5 hr
  obtain ⟨_, _, h3, _, _, _⟩ := reach_basic hr
  exact ⟨hg, hn, h3, nodup_in_grid_length_le hn hg⟩

/-- Claim C5 (witness): the invariants hold at a concrete initial state. -/
theorem c5_witness :
    all_in_grid 10 5 (init_game 10 5 (⟨[0, 0], 0⟩ : Rng)).1.snake ∧
    (init_game 10 5 (⟨[0, 0], 0⟩ : Rng)).1.snake.Nodup ∧
    4 ≤ (init_game 10 5 (⟨[0, 0], 0⟩ : Rng)).1.snake.length ∧
    (init_game 10 5 (⟨[0, 0], 0⟩ : Rng)).1.snake.length ≤ 10 * 5 :=
  c5_invariants 10 5 _ (by decide) (by decide) (Reach.init ⟨[0, 0], 0⟩)

/-- Claim C6 (amended): a tick reports game over exactly when the new head
is out of the grid (wall, checked first), or hits an existing segment
including the current tail (self, checked second), or the move eats a
fruit and the new length reaches MAX_SNAKE - 1 = 599 (board full); in the
wall and self cases the state and the sample stream are returned
unchanged (in the board-full case the move, growth and scoring are
applied). -/
theorem c6_gameover_rule (s : GameState) (r : Rng) :
    ((step_snake s r).1 = false ↔
      (wall_hit s = true ∨ self_hit s = true ∨
        (wall_hit s = false ∧ self_hit s = false ∧
         point_equal (new_head_of s) s.fruit = true ∧
         MAX_SNAKE - 1 ≤ s.snake.length + 1))) ∧
    (wall_hit s = true ∨ self_hit s = true → step_snake s r = (false, s, r)) := by
  by_cases hw : wall_hit s = true
  · rw [step_eq_wall hw]
    exact ⟨⟨fun _ => Or.inl hw, fun _ => rfl⟩, fun _ => rfl⟩
  · have hw1 : wall_hit s = false := by simpa using hw
    by_cases hs : self_hit s = true
    · rw [step_eq_self hw1 hs]
      exact ⟨⟨fun _ => Or.inr (Or.inl hs), fun _ => rfl⟩, fun _ => rfl⟩
    · have hs1 : self_hit s = false := by simpa using hs
      have hcol : ¬ (wall_hit s = true ∨ self_hit s = true) := by
        intro hc
        rcases hc with hc | hc
        · exact hw hc
        · exact hs hc
      by_cases he : point_equal (new_head_of s) s.fruit = true
      · rw [step_eq_eat hw1 hs1 he]
        by_cases hf : MAX_SNAKE - 1 ≤ s.snake.length + 1
        · rw [if_pos hf]
          exact ⟨⟨fun _ => Or.inr (Or.inr ⟨hw1, hs1, he, hf⟩),
            fun _ => rfl⟩, fun hc => absurd hc hcol⟩
        · rw [if_neg hf]
          refine ⟨⟨fun hfalse => absurd hfalse (by simp), ?_⟩, fun hc => absurd hc hcol⟩
          intro hor
          rcases hor with hc | hc | ⟨_, _, _, hc⟩
          · exact absurd hc hw
          · exact absurd hc hs
          · exact absurd hc hf
      · have he1 : point_equal (new_head_of s) s.fruit = false := by simpa using he
        rw [step_eq_move hw1 hs1 he1]
        refine ⟨⟨fun hfalse => absurd hfalse (by simp), ?_⟩, fun hc => absurd hc hcol⟩
        intro hor
        rcases hor with hc | hc | ⟨_, _, hc, _⟩
        · exact absurd hc hw
        · exact absurd hc hs
        · exact absurd hc (by simp [he1])

set_option maxHeartbeats 4000000 in
set_option maxRecDepth 10000 in
/-- Claim C6 (counterexample): a well-formed 30 by 20 state — 598
pairwise-distinct in-grid segments, stats satisfying the reachable-state
invariants — in which the tick eats a fruit with no wall or self
collision, yet reports game over (the board-full stop), and mutates the
state (score increases): game over is not equivalent to wall-or-self
collision, and not every game-over tick leaves the state unchanged. -/
theorem c6_counterexample :
    (step_snake C6S (⟨[0, 0], 70⟩ : Rng)).1 = false ∧
    wall_hit C6S = false ∧ self_hit C6S = false ∧
    point_equal (new_head_of C6S) C6S.fruit = true ∧
    C6S.game_over = false ∧ C6S.snake.Nodup ∧
    all_in_grid C6S.width C6S.height C6S.snake ∧
    4 ≤ C6S.snake.length ∧ C6S.snake.length = 598 ∧
    C6S.score = 10 * (C6S.snake.length - 4) ∧
    (step_snake C6S (⟨[0, 0], 70⟩ : Rng)).2.1.score = C6S.score + 10 := by
  refine ⟨by decide, by decide, by decide, by decide, rfl, ?_, by decide, ?_, ?_, ?_, ?_⟩
  · exact List.nodup_cons.mpr
      ⟨by decide, ascending_imp_nodup C6TAIL (by decide)⟩
  · decide
  · decide
  · decide
  · have hgs := (grow_state_fields C6S (⟨[0, 0], 70⟩ : Rng)).2.1
    have hT := (@step_eat_state C6S (⟨[0, 0], 70⟩ : Rng)
      (by decide) (by decide) (by decide)).1
    rw [hT, hgs]

/-- Claim C6 (witness): at a concrete wall collision the rule yields game
over with the state unchanged. -/
theorem c6_witness :
    step_snake (⟨10, 5, [⟨0, 2⟩, ⟨1, 2⟩, ⟨2, 2⟩, ⟨3, 2⟩], Direction.LEFT, ⟨9, 4⟩,
        0, 200, 1, false⟩ : GameState) (⟨[0, 0], 0⟩ : Rng) =
      (false, ⟨10, 5, [⟨0, 2⟩, ⟨1, 2⟩, ⟨2, 2⟩, ⟨3, 2⟩], Direction.LEFT, ⟨9, 4⟩,
        0, 200, 1, false⟩, (⟨[0, 0], 0⟩ : Rng)) :=
  (c6_gameover_rule _ _).2 (Or.inl (by decide))

/-- Claim C7: a tick that eats the fruit (new head equals the fruit, no
wall or self collision) prepends the new head without dropping the tail:
the length grows by exactly 1, the score by exactly 10, the old tail cell
remains occupied — it is still the last segment of the grown snake. -/
theorem c7_eat_grows (s : GameState) (r : Rng) (hw : wall_hit s = false)
    (hs : self_hit s = false) (he : point_equal (new_head_of s) s.fruit = true)
    (hne : s.snake ≠ []) :
    (step_snake s r).2.1.snake = new_head_of s :: s.snake ∧
    (step_snake s r).2.1.snake.length = s.snake.length + 1 ∧
    (step_snake s r).2.1.score = s.score + 10 ∧
    s.snake.getLastD ⟨0, 0⟩ ∈ (step_snake s r).2.1.snake ∧
    (step_snake s r).2.1.snake.getLastD ⟨0, 0⟩ = s.snake.getLastD ⟨0, 0⟩ := by
  obtain ⟨hT, _⟩ := @step_eat_state s r hw hs he
  obtain ⟨hsn, hsc, _, _, _, _⟩ := grow_state_fields s r
  rw [hT, hsn, hsc]
  refine ⟨rfl, by simp, rfl, ?_, ?_⟩
  · exact List.mem_cons_of_mem _ (getLastD_eq_getLast hne ⟨0, 0⟩ ▸ List.getLast_mem hne)
  · rw [List.getLastD_cons]
    exact (getLastD_eq_getLast hne (new_head_of s)).trans
      (getLastD_eq_getLast hne ⟨0, 0⟩).symm

/-- Claim C7 (witness): a concrete eat grows the snake from 4 to 5 and
keeps the old tail cell (2,2) occupied as the last segment. -/
theorem c7_witness :
    (step_snake (⟨10, 5, [⟨5, 2⟩, ⟨4, 2⟩, ⟨3, 2⟩, ⟨2, 2⟩], Direction.RIGHT, ⟨6, 2⟩,
        0, 200, 1, false⟩ : GameState) (⟨[0, 0], 0⟩ : Rng)).2.1.snake =
      new_head_of (⟨10, 5, [⟨5, 2⟩, ⟨4, 2⟩, ⟨3, 2⟩, ⟨2, 2⟩], Direction.RIGHT, ⟨6, 2⟩,
        0, 200, 1, false⟩ : GameState) :: [⟨5, 2⟩, ⟨4, 2⟩, ⟨3, 2⟩, ⟨2, 2⟩] ∧
    (step_snake (⟨10, 5, [⟨5, 2⟩, ⟨4, 2⟩, ⟨3, 2⟩, ⟨2, 2⟩], Direction.RIGHT, ⟨6, 2⟩,
        0, 200, 1, false⟩ : GameState) (⟨[0, 0], 0⟩ : Rng)).2.1.snake.length = 4 + 1 ∧
    (step_snake (⟨10, 5, [⟨5, 2⟩, ⟨4, 2⟩, ⟨3, 2⟩, ⟨2, 2⟩], Direction.RIGHT, ⟨6, 2⟩,
        0, 200, 1, false⟩ : GameState) (⟨[0, 0], 0⟩ : Rng)).2.1.score = 0 + 10 ∧
    ([⟨5, 2⟩, ⟨4, 2⟩, ⟨3, 2⟩, (⟨2, 2⟩ : Point)] : List Point).getLastD ⟨0, 0⟩ ∈
      (step_snake (⟨10, 5, [⟨5, 2⟩, ⟨4, 2⟩, ⟨3, 2⟩, ⟨2, 2⟩], Direction.RIGHT, ⟨6, 2⟩,
        0, 200, 1, false⟩ : GameState) (⟨[0, 0], 0⟩ : Rng)).2.1.snake ∧
    (step_snake (⟨10, 5, [⟨5, 2⟩, ⟨4, 2⟩, ⟨3, 2⟩, ⟨2, 2⟩], Direction.RIGHT, ⟨6, 2⟩,
        0, 200, 1, false⟩ : GameState) (⟨[0, 0], 0⟩ : Rng)).2.1.snake.getLastD ⟨0, 0⟩ =
      ([⟨5, 2⟩, ⟨4, 2⟩, ⟨3, 2⟩, (⟨2, 2⟩ : Point)] : List Point).getLastD ⟨0, 0⟩ :=
  c7_eat_grows _ _ (by decide) (by decide) (by decide) (by decide)

/-- Claim C8: a direction-change request stores the requested direction
unless it is the exact reverse of the current one, in which case the
stored direction is kept; no error is signalled and no other state field
changes in either case. -/
theorem c8_direction_rule (s : GameState) (d : Direction) :
    (change_direction s d).dir =
      (if (s.dir == Direction.UP && d == Direction.DOWN) ||
          (s.dir == Direction.DOWN && d == Direction.UP) ||
          (s.dir == Direction.LEFT && d == Direction.RIGHT) ||
          (s.dir == Direction.RIGHT && d == Direction.LEFT) then s.dir else d) ∧
    (change_direction s d).snake = s.snake ∧
    (change_direction s d).score = s.score ∧
    (change_direction s d).width = s.width ∧
    (change_direction s d).height = s.height ∧
    (change_direction s d).game_over = s.game_over ∧
    (change_direction s d).fruit = s.fruit ∧
    (change_direction s d).delay_ms = s.delay_ms ∧
    (change_direction s d).level = s.level := by
  obtain ⟨c1, c2, c3, c4, c5, c6, c7, c8⟩ := change_direction_fields s d
  refine ⟨?_, c1, c2, c3, c4, c5, c6, c7, c8⟩
  unfold change_direction
  split
  · rfl
  · rfl

/-- Claim C9: a tick whose new head is in the grid, hits no segment and
misses the fruit returns Continuing, moves the head one cell in the
current direction, vacates the old tail cell, and leaves length, score,
level, delay and fruit unchanged. -/
theorem c9_normal_move (s : GameState) (r : Rng) (hw : wall_hit s = false)
    (hs : self_hit s = false) (he : point_equal (new_head_of s) s.fruit = false)
    (hne : s.snake ≠ []) (hnd : s.snake.Nodup) :
    (step_snake s r).1 = true ∧
    (step_snake s r).2.1.snake = new_head_of s :: s.snake.dropLast ∧
    (step_snake s r).2.1.snake.headD ⟨0, 0⟩ = apply_dir (s.snake.headD ⟨0, 0⟩) s.dir ∧
    (step_snake s r).2.1.snake.length = s.snake.length ∧
    s.snake.getLastD ⟨0, 0⟩ ∉ (step_snake s r).2.1.snake ∧
    (step_snake s r).2.1.score = s.score ∧ (step_snake s r).2.1.level = s.level ∧
    (step_snake s r).2.1.delay_ms = s.delay_ms ∧ (step_snake s r).2.1.fruit = s.fruit ∧
    (step_snake s r).2.2 = r := by
  rw [step_eq_move hw hs he]
  have hlen : (new_head_of s :: s.snake.dropLast).length = s.snake.length := by
    rw [List.length_cons, List.length_dropLast]
    have : s.snake.length ≠ 0 := fun hz => hne (List.length_eq_zero.mp hz)
    omega
  have hgl : s.snake.getLastD ⟨0, 0⟩ = s.snake.getLast hne := getLastD_eq_getLast hne _
  refine ⟨rfl, rfl, rfl, hlen, ?_, rfl, rfl, rfl, rfl, rfl⟩
  intro hmem
  rcases List.mem_cons.mp hmem with hh | ht
  · exact self_hit_false_not_mem hs _ (hgl ▸ List.getLast_mem hne) hh.symm
  · have hsplit : s.snake.dropLast ++ [s.snake.getLast hne] = s.snake :=
      List.dropLast_append_getLast hne
    have hnd2 : (s.snake.dropLast ++ [s.snake.getLast hne]).Nodup := by
      rw [hsplit]
      exact hnd
    rw [List.nodup_append] at hnd2
    exact hnd2.2.2 (hgl ▸ ht) (List.mem_singleton_self _)

/-- Claim C9 (witness): a concrete obstacle-free tick moves the head right
one cell, vacates the old tail cell (2,2), and changes nothing else. -/
theorem c9_witness :
    (step_snake (⟨10, 5, [⟨5, 2⟩, ⟨4, 2⟩, ⟨3, 2⟩, ⟨2, 2⟩], Direction.RIGHT, ⟨9, 4⟩,
        0, 200, 1, false⟩ : GameState) (⟨[0, 0], 0⟩ : Rng)).1 = true ∧
    (step_snake (⟨10, 5, [⟨5, 2⟩, ⟨4, 2⟩, ⟨3, 2⟩, ⟨2, 2⟩], Direction.RIGHT, ⟨9, 4⟩,
        0, 200, 1, false⟩ : GameState) (⟨[0, 0], 0⟩ : Rng)).2.1.snake.length = 4 ∧
    ([⟨5, 2⟩, ⟨4, 2⟩, ⟨3, 2⟩, (⟨2, 2⟩ : Point)] : List Point).getLastD ⟨0, 0⟩ ∉
      (step_snake (⟨10, 5, [⟨5, 2⟩, ⟨4, 2⟩, ⟨3, 2⟩, ⟨2, 2⟩], Direction.RIGHT, ⟨9, 4⟩,
        0, 200, 1, false⟩ : GameState) (⟨[0, 0], 0⟩ : Rng)).2.1.snake := by
  have hall := c9_normal_move
    (⟨10, 5, [⟨5, 2⟩, ⟨4, 2⟩, ⟨3, 2⟩, ⟨2, 2⟩], Direction.RIGHT, ⟨9, 4⟩,
      0, 200, 1, false⟩ : GameState) (⟨[0, 0], 0⟩ : Rng)
    (by decide) (by decide) (by decide) (by decide) (by decide)
  exact ⟨hall.1, hall.2.2.2.1, hall.2.2.2.2.1⟩

/-- Claim C10: in every reachable state the score equals ten times the
number of fruits eaten, i.e. score = 10 * (snake length - 4). -/
theorem c10_score_length (w h : Nat) (sr : GameState × Rng) (hr : Reach w h sr) :
    sr.1.score = 10 * (sr.1.snake.length - 4) :=
  (reach_basic hr).2.2.2.2.2

/-- Claim C10 (witness): the invariant at a concrete initial state. -/
theorem c10_witness :
    (init_game 10 5 (⟨[0, 0], 0⟩ : Rng)).1.score =
      10 * ((init_game 10 5 (⟨[0, 0], 0⟩ : Rng)).1.snake.length - 4) :=
  c10_score_length 10 5 _ (Reach.init ⟨[0, 0], 0⟩)
end Snake
